import Mathlib

/-!
Shallow embedding of the Longitudinal Event Timeline & Analytics Engine:
the event extractor / timeline assembler / context enricher of
`src/services/longitudinalHistoryService.js` (the `LongitudinalHistoryService`
class) and the analytics of `src/services/tumorBoardReportGenerator.js`
(`calculateBiomarkerTrend`, `calculateLinearTrend`,
`calculateTreatmentEffectiveness`, `calculateRiskScore`).

Modelling conventions:
- JavaScript numbers are modelled as exact rationals (`ℚ`); IEEE-754 rounding
  is abstracted away, but the special values produced by division by zero are
  tracked explicitly through the `JsNum` type (`nan`, `posInf`, `negInf`).
- JavaScript `Date` values are modelled as proleptic Gregorian calendar dates
  `CalDate` (year, month, day); chronological comparison of valid dates is the
  lexicographic comparison of the (year, month, day) triple, and
  `differenceInDays` is the difference of serial day numbers.
- `undefined`/`null` fields are modelled with `Option`; JavaScript string
  truthiness (`""` is falsy) is modelled explicitly where the code relies on it.
- `Math.random()` draws and `Date.now()` reads are threaded as explicit
  parameters (`rand`, `now`, `nowDate`), making the code's non-determinism
  visible in the embedding.
-/

/-- JavaScript `String.prototype.includes`: `headMatches p s` is true when the
pattern `p` is an initial segment of `s`. -/
def headMatches : List Char → List Char → Bool
  | [], _ => true
  | _ :: _, [] => false
  | p :: ps, c :: cs => p == c && headMatches ps cs

/-- Substring occurrence test over character lists (scans positions left to
right, as `String.prototype.includes` does). -/
def containsChars (pat : List Char) : List Char → Bool
  | [] => headMatches pat []
  | c :: cs => headMatches pat (c :: cs) || containsChars pat cs

/-- JavaScript `s.includes(pat)`. -/
def jsIncludes (s pat : String) : Bool := containsChars pat.toList s.toList

/-- JavaScript `s.toLowerCase()` (ASCII case folding). -/
def jsToLower (s : String) : String := String.map Char.toLower s

/-- JavaScript `a || b` for a possibly-undefined string `a` with a string
default `b` (the empty string is falsy). -/
def jsOrStr (a : Option String) (b : String) : String :=
  match a with
  | some s => if s = "" then b else s
  | none => b

/-- A JavaScript number: either a finite value (an exact rational in this
model) or one of the IEEE special values `NaN`, `+Infinity`, `-Infinity`. -/
inductive JsNum where
  | num (q : ℚ)
  | nan
  | posInf
  | negInf
deriving DecidableEq

/-- Negation of a JavaScript number. -/
def jsNeg : JsNum → JsNum
  | .num q => .num (-q)
  | .nan => .nan
  | .posInf => .negInf
  | .negInf => .posInf

/-- Addition of JavaScript numbers (`Infinity + -Infinity` is `NaN`). -/
def jsAdd : JsNum → JsNum → JsNum
  | .num a, .num b => .num (a + b)
  | .nan, _ => .nan
  | _, .nan => .nan
  | .posInf, .negInf => .nan
  | .negInf, .posInf => .nan
  | .posInf, _ => .posInf
  | _, .posInf => .posInf
  | .negInf, _ => .negInf
  | _, .negInf => .negInf

/-- Subtraction of JavaScript numbers. -/
def jsSub (a b : JsNum) : JsNum := jsAdd a (jsNeg b)

/-- Multiplication of JavaScript numbers (`Infinity * 0` is `NaN`). -/
def jsMul : JsNum → JsNum → JsNum
  | .num a, .num b => .num (a * b)
  | .nan, _ => .nan
  | _, .nan => .nan
  | .posInf, .posInf => .posInf
  | .posInf, .negInf => .negInf
  | .negInf, .posInf => .negInf
  | .negInf, .negInf => .posInf
  | .posInf, .num b => if b = 0 then .nan else if 0 < b then .posInf else .negInf
  | .num a, .posInf => if a = 0 then .nan else if 0 < a then .posInf else .negInf
  | .negInf, .num b => if b = 0 then .nan else if 0 < b then .negInf else .posInf
  | .num a, .negInf => if a = 0 then .nan else if 0 < a then .negInf else .posInf

/-- Division of JavaScript numbers: `0 / 0` is `NaN`, `x / 0` is a signed
infinity for `x ≠ 0` (our model has no negative zero: `0` acts as `+0`). -/
def jsDiv : JsNum → JsNum → JsNum
  | .num a, .num b =>
      if b = 0 then (if a = 0 then .nan else if 0 < a then .posInf else .negInf)
      else .num (a / b)
  | .nan, _ => .nan
  | _, .nan => .nan
  | .posInf, .posInf => .nan
  | .posInf, .negInf => .nan
  | .negInf, .posInf => .nan
  | .negInf, .negInf => .nan
  | .posInf, .num b => if 0 ≤ b then .posInf else .negInf
  | .negInf, .num b => if 0 ≤ b then .negInf else .posInf
  | .num _, .posInf => .num 0
  | .num _, .negInf => .num 0

/-- JavaScript `a > c` for a number `a` and finite `c` (`NaN` compares false). -/
def jsGtQ (a : JsNum) (c : ℚ) : Bool :=
  match a with
  | .num q => decide (c < q)
  | .nan => false
  | .posInf => true
  | .negInf => false

/-- JavaScript `a < c` for a number `a` and finite `c` (`NaN` compares false). -/
def jsLtQ (a : JsNum) (c : ℚ) : Bool :=
  match a with
  | .num q => decide (q < c)
  | .nan => false
  | .posInf => false
  | .negInf => true

/-- The Pearson correlation value computed by `calculateLinearTrend`.  The
finite case stores the exact numerator and the two squared denominators
(`Σ(xᵢ-x̄)²` and `Σ(yᵢ-ȳ)²`); the represented real value is
`numer / (√denomSqX * √denomSqY)`, which is irrational in general and
therefore kept symbolic. -/
inductive CorrVal where
  | nan
  | posInf
  | negInf
  | finite (numer denomSqX denomSqY : ℚ)
deriving DecidableEq

/-- `numer / (√A * √B)` under JavaScript float semantics: the denominator is
zero exactly when `A * B = 0` (both `A` and `B` are sums of squares, hence
non-negative), giving `NaN` for `0 / 0` and a signed infinity otherwise. -/
def mkCorrelation (numer A B : ℚ) : CorrVal :=
  if A * B = 0 then
    (if numer = 0 then .nan else if 0 < numer then .posInf else .negInf)
  else .finite numer A B

/-- A calendar date (proleptic Gregorian).  JavaScript `Date` objects in this
code always sit at a day granularity. -/
structure CalDate where
  year : Int
  month : Int
  day : Int
deriving DecidableEq

/-- Serial day number of a Gregorian date (days since 1970-01-01), the
standard civil-from-date conversion.  `differenceInDays d1 d2` in the source
is `dayNumber d1 - dayNumber d2`. -/
def dayNumber (d : CalDate) : Int :=
  let y := if d.month ≤ 2 then d.year - 1 else d.year
  let era := y / 400
  let yoe := y - era * 400
  let mp := if 2 < d.month then d.month - 3 else d.month + 9
  let doy := (153 * mp + 2) / 5 + d.day - 1
  let doe := yoe * 365 + yoe / 4 - yoe / 100 + doy
  era * 146097 + doe - 719468

/-- Inverse of `dayNumber`: the Gregorian date of a serial day number. -/
def civilFromDays (z0 : Int) : CalDate :=
  let z := z0 + 719468
  let era := z / 146097
  let doe := z - era * 146097
  let yoe := (doe - doe / 1460 + doe / 36524 - doe / 146096) / 365
  let y := yoe + era * 400
  let doy := doe - (365 * yoe + yoe / 4 - yoe / 100)
  let mp := (5 * doy + 2) / 153
  let d := doy - (153 * mp + 2) / 5 + 1
  let m := if mp < 10 then mp + 3 else mp - 9
  ⟨if m ≤ 2 then y + 1 else y, m, d⟩

/-- `date-fns` `differenceInDays(a, b)` for day-granularity dates. -/
def differenceInDays (a b : CalDate) : Int := dayNumber a - dayNumber b

/-- `date-fns` `addDays(d, k)`. -/
def addDays (d : CalDate) (k : Int) : CalDate := civilFromDays (dayNumber d + k)

/-- Chronological order on dates.  For valid calendar dates the millisecond
timestamps compared by the JavaScript sort comparator order exactly as the
lexicographic (year, month, day) comparison used here. -/
def dateLe (a b : CalDate) : Prop :=
  a.year < b.year ∨ (a.year = b.year ∧
    (a.month < b.month ∨ (a.month = b.month ∧ a.day ≤ b.day)))

instance : DecidablePred fun p : CalDate × CalDate => dateLe p.1 p.2 :=
  fun _ => by unfold dateLe; infer_instance

instance decDateLe (a b : CalDate) : Decidable (dateLe a b) := by
  unfold dateLe; infer_instance

/-- Boolean form of `dateLe`, used as the sort comparator. -/
def dateLeB (a b : CalDate) : Bool := decide (dateLe a b)

/-- The period key computed by `format(event.date, 'MMMM yyyy')`: the string
"MonthName Year" corresponds one-to-one to the (year, month) pair. -/
def monthKey (d : CalDate) : Int × Int := (d.year, d.month)

/-- Order on period keys induced by the calendar. -/
def keyLe (a b : Int × Int) : Prop := a.1 < b.1 ∨ (a.1 = b.1 ∧ a.2 ≤ b.2)

/-- Strict order on period keys. -/
def keyLt (a b : Int × Int) : Prop := a.1 < b.1 ∨ (a.1 = b.1 ∧ a.2 < b.2)

instance decKeyLe (a b : Int × Int) : Decidable (keyLe a b) := by
  unfold keyLe; infer_instance

instance decKeyLt (a b : Int × Int) : Decidable (keyLt a b) := by
  unfold keyLt; infer_instance

/-- JavaScript template interpolation of a possibly-undefined string
(`undefined` prints as "undefined"). -/
def jsStr (o : Option String) : String := o.getD "undefined"

/-- Display form of a lab value (values are modelled by their `parseFloat`
outcome; the raw text of non-numeric values is abstracted). -/
def showVal (v : Option ℚ) : String :=
  match v with
  | some q => toString q
  | none => "non-numeric"

/-- Sentinel for the JavaScript Invalid Date (`new Date(undefined)`); no claim
exercises records that produce it. -/
def invalidDate : CalDate := ⟨0, 0, 0⟩

/-- `cancerType` section of the canonical patient record. -/
structure CancerType where
  primary : Option String
  stage : Option String
  histology : Option String
  grade : Option String
  diagnosisDate : Option CalDate
deriving DecidableEq

/-- One `medicalHistory` entry (`type` is `htype` here). -/
structure HistoryEntry where
  date : CalDate
  htype : Option String
  description : Option String
  provider : Option String
  sourceSystem : Option String
deriving DecidableEq

/-- A lab timestamp: either an absolute date string or a relative "day_X"
offset string. -/
inductive LabStamp where
  | abs (d : CalDate)
  | rel (dayOffset : Int)
deriving DecidableEq

/-- One `labResults` entry.  Lab values are modelled by their `parseFloat`
outcome: `some q` for numeric text, `none` for text that parses to `NaN`. -/
structure LabResult where
  timestamp : Option LabStamp
  testDate : Option LabStamp
  observations : Option (List (String × Option ℚ))
  testName : Option String
  value : Option ℚ
  unit : Option String
  referenceRange : Option String
  interpretation : Option String
  sourceSystem : Option String
deriving DecidableEq

/-- One `imaging` entry. -/
structure ImagingStudy where
  date : Option CalDate
  studyDate : Option CalDate
  modality : Option String
  studyId : Option String
  description : Option String
  findings : Option String
  dicomUrl : Option String
  sourceSystem : Option String
deriving DecidableEq

/-- One `pathologyReports` entry. -/
structure PathReport where
  collectionDate : CalDate
  reportDate : CalDate
  specimenType : Option String
  reportId : Option String
  findings : Option String
  diagnosis : Option String
  sourceSystem : Option String
deriving DecidableEq

/-- One `mutationProfile` entry of the genomic profile. -/
structure Mutation where
  gene : String
  variant : Option String
deriving DecidableEq

/-- `genomics` section of the canonical patient record. -/
structure Genomics where
  reportDate : Option CalDate
  mutationProfile : Option (List Mutation)
  tmb : Option ℚ
  msi : Option String
deriving DecidableEq

/-- One `treatments` entry.  `ttype` models `type`; entries are modelled with
their type present (the source would throw in `formatTreatmentType` on an
entry lacking it). -/
structure Treatment where
  treatmentId : Option String
  ttype : String
  regimen : Option String
  startDate : CalDate
  endDate : Option CalDate
  response : Option String
  adverseEvents : Option (List String)
  sourceSystem : Option String
deriving DecidableEq

/-- One `clinicalTrials` entry (`trialName` present: the source would throw in
`extractTrialPhase` on an entry lacking it). -/
structure Trial where
  trialId : Option String
  trialName : String
  enrollmentDate : CalDate
  status : Option String
  arm : Option String
deriving DecidableEq

/-- The canonical patient record consumed by
`generateComprehensiveLongitudinalHistory`.  Every section is optional.
(Fields not read by the embedded functions, e.g. `demographics`, are
omitted.) -/
structure PatientData where
  abhaId : String
  cancerType : Option CancerType
  medicalHistory : Option (List HistoryEntry)
  labResults : Option (List LabResult)
  imaging : Option (List ImagingStudy)
  pathologyReports : Option (List PathReport)
  genomics : Option Genomics
  treatments : Option (List Treatment)
  clinicalTrials : Option (List Trial)
deriving DecidableEq

/-- The `eventTypes` table of `LongitudinalHistoryService` (each constructor
stands for its snake_case string). -/
inductive EventType where
  | diagnosis
  | symptom
  | lab_result
  | imaging
  | pathology
  | genomics
  | treatment_start
  | treatment_end
  | treatment_response
  | admission
  | discharge
  | clinical_trial
  | progression
  | remission
  | adverse_event
  | follow_up
deriving DecidableEq

/-- Event identifiers, one constructor per template string in
`extractAllEvents` (`diagnosis-${Date.now()}`, `history-${index}`,
`lab-${index}-${obsIndex}`, `lab-${index}`, `imaging-${index}`,
`pathology-collection-${index}`, `pathology-report-${index}`,
`genomics-${Date.now()}`, `treatment-start-${index}`,
`treatment-end-${index}`, `adverse-event-${index}-${aeIndex}`,
`trial-${index}`). -/
inductive EventId where
  | diagnosisId (now : Nat)
  | historyId (i : Nat)
  | labObsId (i j : Nat)
  | labId (i : Nat)
  | imagingId (i : Nat)
  | pathologyCollectionId (i : Nat)
  | pathologyReportId (i : Nat)
  | genomicsId (now : Nat)
  | treatmentStartId (i : Nat)
  | treatmentEndId (i : Nat)
  | adverseEventId (i j : Nat)
  | trialId (i : Nat)
deriving DecidableEq

/-- Result object of `determineImagingComparison`. -/
structure ImagingComparison where
  status : String
  description : String
  confidence : Option ℚ
deriving DecidableEq

/-- An actionable mutation as produced by `identifyActionableMutations`
(the mutation spread together with its `therapyOptions`). -/
structure ActionableMutation where
  mutation : Mutation
  therapyOptions : List String
deriving DecidableEq

/-- The kind-specific `details` payload of each Event, one constructor per
object literal pushed in `extractAllEvents`. -/
inductive Details where
  | diag (primary stage histology grade : Option String)
  | hist (provider htype : Option String)
  | labObs (testName : String) (value : Option ℚ) (unit : String)
      (timestamp : Option LabStamp) (abnormal : Bool)
  | labSingle (testName : Option String) (value : Option ℚ)
      (unit : Option String) (referenceRange : Option String)
      (interpretation : Option String) (abnormal : Bool)
  | img (modality : Option String) (studyId : Option String)
      (findings : Option String) (bodyRegion : String)
      (comparison : ImagingComparison)
  | pathCollection (specimenType : Option String) (reportId : Option String)
      (phase : String)
  | pathReport (specimenType : Option String) (findings : Option String)
      (diagnosis : Option String) (reportId : Option String) (phase : String)
      (processingTime : Int)
  | genom (mutations : Option (List Mutation)) (tmb : Option ℚ)
      (msi : Option String) (actionable : List ActionableMutation)
  | trStart (treatmentId : Option String) (ttype : String)
      (regimen : Option String) (intent : String) (line : Nat)
  | trEnd (treatmentId : Option String) (ttype : String)
      (regimen : Option String) (response : Option String) (duration : Int)
      (adverseEvents : Option (List String))
  | adverse (treatmentId : Option String) (event : String) (severity : String)
      (action : String)
  | trial (trialId : Option String) (trialName : String)
      (status : Option String) (arm : Option String) (phase : String)
deriving DecidableEq

/-- JavaScript `details.testName` (undefined on payloads without it). -/
def Details.testNameField : Details → Option String
  | .labObs tn _ _ _ _ => some tn
  | .labSingle tn _ _ _ _ _ => tn
  | _ => none

/-- JavaScript `parseFloat(details.value)` (NaN, i.e. `none`, on payloads
without a `value`). -/
def Details.valueField : Details → Option ℚ
  | .labObs _ v _ _ _ => v
  | .labSingle _ v _ _ _ _ => v
  | _ => none

/-- JavaScript `details.response` (undefined on payloads without it). -/
def Details.responseField : Details → Option String
  | .trEnd _ _ _ r _ _ => r
  | _ => none

/-- JavaScript `details.phase` (undefined on payloads without it). -/
def Details.phaseField : Details → Option String
  | .pathCollection _ _ p => some p
  | .pathReport _ _ _ _ p _ => some p
  | _ => none

/-- JavaScript `details.processingTime` (undefined on payloads without it). -/
def Details.processingTimeField : Details → Option Int
  | .pathReport _ _ _ _ _ t => some t
  | _ => none

/-- A canonical Event as pushed by `extractAllEvents`.  `trend` is the
event-level trend string set only on single-format lab events; `imageUrl` is
set only on imaging events. -/
structure Event where
  id : EventId
  type : EventType
  date : CalDate
  title : Option String
  description : Option String
  details : Details
  source : String
  category : String
  importance : String
  trend : Option String
  imageUrl : Option String
deriving DecidableEq

/-- `determineBaseDate`: earliest of the diagnosis date and all history dates,
or the current date when none exist.  (Computed at the top of
`extractAllEvents` but not used by it.) -/
def determineBaseDate (pd : PatientData) (nowDate : CalDate) : CalDate :=
  let dates :=
    (match pd.cancerType with
     | some ct => match ct.diagnosisDate with
       | some dd => [dd]
       | none => []
     | none => []) ++
    (match pd.medicalHistory with
     | some hs => hs.map HistoryEntry.date
     | none => [])
  match dates with
  | [] => nowDate
  | d :: rest => rest.foldl (fun acc x => if dateLeB x acc then x else acc) d

/-- `formatEventTitle`: fixed titles per history type, else the description
(`titles[type] || description`). -/
def formatEventTitle (htype : Option String) (description : Option String) :
    Option String :=
  match htype with
  | some "symptom" => some "Symptom Report"
  | some "diagnosis" => some "Clinical Diagnosis"
  | some "admission" => some "Hospital Admission"
  | some "discharge" => some "Hospital Discharge"
  | some "follow_up" => some "Follow-up Visit"
  | _ => description

/-- `isAbnormalResult`: keyword scan over a lab interpretation string. -/
def isAbnormalResult (interpretation : Option String) : Bool :=
  match interpretation with
  | none => false
  | some i =>
    if i = "" then false
    else
      ["high", "low", "elevated", "decreased", "abnormal", "positive"].any
        (fun k => jsIncludes (jsToLower i) k)

/-- `calculateLabTrend`: event-level trend of a single-format lab result
against the previous lab entry (20% thresholds).  The `none` arm of the
lookup is unreachable for in-range indices (the source would throw there). -/
def calculateLabTrend (currentLab : LabResult) (allLabs : List LabResult)
    (currentIndex : Nat) : String :=
  if currentIndex = 0 then "baseline"
  else
    match allLabs.get? (currentIndex - 1) with
    | none => "stable"
    | some previousLab =>
      if previousLab.testName ≠ currentLab.testName then "new"
      else
        match currentLab.value, previousLab.value with
        | some c, some p =>
          if p = 0 then
            (if 0 < c then "increasing" else if c < 0 then "decreasing"
             else "stable")
          else
            let changePercent := (c - p) / p * 100
            if 20 < changePercent then "increasing"
            else if changePercent < -20 then "decreasing"
            else "stable"
        | _, _ => "stable"

/-- `getLabUnit`: static unit lookup. -/
def getLabUnit (testName : String) : String :=
  match testName with
  | "RBC" => "10^6/uL"
  | "WBC" => "10^3/uL"
  | "Platelets" => "10^3/uL"
  | "CA-125" => "U/mL"
  | "Hemoglobin" => "g/dL"
  | "Hematocrit" => "%"
  | "Squamous Cell Carcinoma Antigen" => "ng/mL"
  | _ => ""

/-- `assessLabImportance`: tumor markers high, blood counts medium, else low
(the `value` argument is unused by the source body too). -/
def assessLabImportance (testName : String) (value : Option ℚ) : String :=
  if jsIncludes testName "CA-" || jsIncludes testName "Antigen" then "high"
  else if ["RBC", "WBC", "Platelets", "Hemoglobin"].contains testName then
    "medium"
  else "low"

/-- `extractBodyRegion`: first matching region keyword table entry. -/
def extractBodyRegion (description : Option String) : String :=
  let desc := jsToLower (description.getD "")
  if ["head", "brain", "skull", "cranial"].any (fun k => jsIncludes desc k)
    then "head"
  else if ["neck", "cervical", "throat"].any (fun k => jsIncludes desc k)
    then "neck"
  else if ["chest", "thorax", "lung", "pulmonary"].any
      (fun k => jsIncludes desc k) then "chest"
  else if ["abdomen", "abdominal", "liver", "kidney"].any
      (fun k => jsIncludes desc k) then "abdomen"
  else if ["pelvis", "pelvic", "bladder"].any (fun k => jsIncludes desc k)
    then "pelvis"
  else if ["arm", "leg", "extremity"].any (fun k => jsIncludes desc k)
    then "extremities"
  else "unspecified"

/-- `assessImagingImportance`: keyword classification of findings text. -/
def assessImagingImportance (img : ImagingStudy) : String :=
  match img.findings with
  | none => "medium"
  | some f =>
    if f = "" then "medium"
    else
      let fl := jsToLower f
      if ["mass", "tumor", "metastas", "progression", "recurrence", "new"].any
          (fun k => jsIncludes fl k) then "high"
      else if ["stable", "unchanged", "improvement"].any
          (fun k => jsIncludes fl k) then "medium"
      else "low"

/-- `getTherapyOptions`: static therapy lookup per gene. -/
def getTherapyOptions (gene : String) : List String :=
  match gene with
  | "EGFR" => ["Osimertinib", "Erlotinib", "Gefitinib"]
  | "ALK" => ["Alectinib", "Crizotinib", "Brigatinib"]
  | "BRAF" => ["Dabrafenib + Trametinib"]
  | "HER2" => ["Trastuzumab", "Pertuzumab"]
  | "BRCA1" => ["PARP inhibitors", "Platinum-based therapy"]
  | "BRCA2" => ["PARP inhibitors", "Platinum-based therapy"]
  | _ => []

/-- `identifyActionableMutations`: filter against the fixed actionable-gene
allow-list, annotating each hit with therapy options. -/
def identifyActionableMutations (mutations : Option (List Mutation)) :
    List ActionableMutation :=
  match mutations with
  | none => []
  | some ms =>
    (ms.filter (fun m =>
      ["EGFR", "ALK", "ROS1", "BRAF", "HER2", "MET", "RET", "NTRK", "BRCA1",
       "BRCA2"].contains m.gene)).map
      (fun m => ⟨m, getTherapyOptions m.gene⟩)

/-- JavaScript `type.charAt(0).toUpperCase() + type.slice(1)`. -/
def jsCapitalize (s : String) : String :=
  match s.toList with
  | [] => ""
  | c :: cs => String.mk (c.toUpper :: cs)

/-- `formatTreatmentType`: fixed display names, else capitalized type. -/
def formatTreatmentType (t : String) : String :=
  match t with
  | "chemotherapy" => "Chemotherapy"
  | "radiation" => "Radiation Therapy"
  | "surgery" => "Surgical Intervention"
  | "immunotherapy" => "Immunotherapy"
  | "targeted_therapy" => "Targeted Therapy"
  | "hormone_therapy" => "Hormone Therapy"
  | _ => jsCapitalize t

/-- `determineTreatmentIntent`: stage-keyword classification. -/
def determineTreatmentIntent (t : Treatment) (pd : PatientData) : String :=
  match pd.cancerType with
  | none => "unknown"
  | some ct =>
    match ct.stage with
    | none => "unknown"
    | some st =>
      if st = "" then "unknown"
      else if jsIncludes st "IV" || jsIncludes st "M1" then "palliative"
      else if jsIncludes st "III" then "curative"
      else if jsIncludes st "II" then "curative"
      else if jsIncludes st "I" then "curative"
      else "unknown"

/-- `determineTreatmentLine`: the ordinal position of the course. -/
def determineTreatmentLine (t : Treatment) (allTreatments : List Treatment)
    (currentIndex : Nat) : Nat := currentIndex + 1

/-- `estimateAESeverity`: keyword classification of an adverse-event string. -/
def estimateAESeverity (adverseEvent : String) : String :=
  let ae := jsToLower adverseEvent
  if ["neutropenia", "thrombocytopenia", "anemia", "neuropathy"].any
      (fun k => jsIncludes ae k) then "severe"
  else if ["nausea", "fatigue", "diarrhea", "rash"].any
      (fun k => jsIncludes ae k) then "moderate"
  else "mild"

/-- ASCII whitespace (the `\s`-class characters that occur in trial names). -/
def isWs (c : Char) : Bool := c == ' ' || c == '\t' || c == '\n' || c == '\r'

/-- The capture group `(i{1,3}|[1-3])` of the trial-phase regex, matched
greedily at the head of `cs`. -/
def matchPhaseGroup (cs : List Char) : Option (List Char) :=
  match cs with
  | [] => none
  | c :: rest =>
    if c == 'i' || c == 'I' then
      match rest with
      | [] => some [c]
      | c2 :: rest2 =>
        if c2 == 'i' || c2 == 'I' then
          match rest2 with
          | [] => some [c, c2]
          | c3 :: _ =>
            if c3 == 'i' || c3 == 'I' then some [c, c2, c3]
            else some [c, c2]
        else some [c]
    else if c == '1' || c == '2' || c == '3' then some [c]
    else none

/-- Attempt to match `/phase\s+(i{1,3}|[1-3])/i` at the head of `cs`. -/
def matchPhaseAt (cs : List Char) : Option (List Char) :=
  match cs with
  | p :: h :: a :: s :: e :: rest =>
    if (p == 'p' || p == 'P') && (h == 'h' || h == 'H') &&
       (a == 'a' || a == 'A') && (s == 's' || s == 'S') &&
       (e == 'e' || e == 'E') then
      match rest with
      | [] => none
      | c :: rest2 =>
        if isWs c then matchPhaseGroup (rest2.dropWhile isWs) else none
    else none
  | _ => none

/-- Scan for the first position where the trial-phase regex matches. -/
def scanPhase : List Char → Option (List Char)
  | [] => none
  | c :: cs =>
    match matchPhaseAt (c :: cs) with
    | some g => some g
    | none => scanPhase cs

/-- `extractTrialPhase`: `trialName.match(/phase\s+(i{1,3}|[1-3])/i)`, the
captured group uppercased, else "Unknown". -/
def extractTrialPhase (trialName : String) : String :=
  match scanPhase trialName.toList with
  | some g => String.mk (g.map Char.toUpper)
  | none => "Unknown"

/-- `determineImagingComparison`: baseline for the first study, otherwise a
keyword classification of the current findings (the previous findings are
computed by the source but not used in any condition). -/
def determineImagingComparison (currentImaging : ImagingStudy)
    (allImaging : Option (List ImagingStudy)) (currentIndex : Nat) :
    ImagingComparison :=
  match allImaging with
  | none => ⟨"baseline", "Baseline study", none⟩
  | some prior =>
    if currentIndex = 0 then ⟨"baseline", "Baseline study", none⟩
    else
      match prior.get? (currentIndex - 1) with
      | none => ⟨"no_comparison", "No prior study for comparison", none⟩
      | some _ =>
        let currentFindings := jsToLower (currentImaging.findings.getD "")
        if ["progression", "increase", "enlargement", "new", "worsening"].any
            (fun k => jsIncludes currentFindings k) then
          ⟨"progression",
           "Imaging shows disease progression compared to prior study",
           some (8 / 10)⟩
        else if
            ["improvement", "reduction", "decrease", "response",
             "resolution"].any (fun k => jsIncludes currentFindings k) then
          ⟨"improvement", "Imaging shows improvement compared to prior study",
           some (8 / 10)⟩
        else if ["stable", "unchanged", "similar", "no change"].any
            (fun k => jsIncludes currentFindings k) then
          ⟨"stable", "Imaging shows stable disease compared to prior study",
           some (9 / 10)⟩
        else
          ⟨"indeterminate",
           "Unable to determine comparison with prior study", some (3 / 10)⟩

/-- Diagnosis extraction: one critical diagnosis Event when
`cancerType?.diagnosisDate` exists (its id embeds `Date.now()`). -/
def diagnosisEvents (pd : PatientData) (now : Nat) : List Event :=
  match pd.cancerType with
  | none => []
  | some ct =>
    match ct.diagnosisDate with
    | none => []
    | some dd =>
      [{ id := .diagnosisId now
         type := .diagnosis
         date := dd
         title := some "Cancer Diagnosis"
         description := some ("Diagnosed with " ++ jsStr ct.primary)
         details := .diag ct.primary ct.stage ct.histology ct.grade
         source := "EMR"
         category := "diagnosis"
         importance := "critical"
         trend := none
         imageUrl := none }]

/-- Medical-history extraction, one Event per entry (`forEach` with index). -/
def historyEventsAux (i : Nat) : List HistoryEntry → List Event
  | [] => []
  | h :: rest =>
    { id := .historyId i
      type := if h.htype = some "diagnosis" then .diagnosis else .symptom
      date := h.date
      title := formatEventTitle h.htype h.description
      description := h.description
      details := .hist h.provider h.htype
      source := jsOrStr h.sourceSystem "EMR"
      category := "clinical"
      importance := if h.htype = some "diagnosis" then "high" else "medium"
      trend := none
      imageUrl := none } :: historyEventsAux (i + 1) rest

/-- Medical-history section of `extractAllEvents`. -/
def historyEvents (pd : PatientData) : List Event :=
  match pd.medicalHistory with
  | none => []
  | some hs => historyEventsAux 0 hs

/-- `parseLabDate`: current date when the timestamp is missing, a fixed
2024-01-01 base plus offset for "day_X" stamps, else the parsed date. -/
def parseLabDate (timestamp : Option LabStamp) (nowDate : CalDate) : CalDate :=
  match timestamp with
  | none => nowDate
  | some (.rel k) => addDays ⟨2024, 1, 1⟩ k
  | some (.abs d) => d

/-- Multi-observation lab extraction: one Event per observation entry. -/
def labObsEventsAux (labIdx : Nat) (eventDate : CalDate)
    (timestamp : Option LabStamp) (srcSys : Option String) (j : Nat) :
    List (String × Option ℚ) → List Event
  | [] => []
  | (testName, value) :: rest =>
    { id := .labObsId labIdx j
      type := .lab_result
      date := eventDate
      title := some (testName ++ " Result")
      description := some (testName ++ ": " ++ showVal value)
      details := .labObs testName value (getLabUnit testName) timestamp
        (isAbnormalResult none)
      source := jsOrStr srcSys "LIS"
      category := "laboratory"
      importance := assessLabImportance testName value
      trend := none
      imageUrl := none } ::
    labObsEventsAux labIdx eventDate timestamp srcSys (j + 1) rest

/-- Lab-results extraction: per record, either one Event per observation
(multi-observation format) or one single-format Event with an event-level
trend. -/
def labEventsAux (allLabs : List LabResult) (nowDate : CalDate) (i : Nat) :
    List LabResult → List Event
  | [] => []
  | lab :: rest =>
    let eventDate := parseLabDate (lab.timestamp <|> lab.testDate) nowDate
    (match lab.observations with
     | some obs => labObsEventsAux i eventDate lab.timestamp lab.sourceSystem 0 obs
     | none =>
       [{ id := .labId i
          type := .lab_result
          date := eventDate
          title := some (jsStr lab.testName ++ " Results")
          description := some (jsStr lab.testName ++ ": " ++ showVal lab.value
            ++ " " ++ jsStr lab.unit)
          details := .labSingle lab.testName lab.value lab.unit
            lab.referenceRange lab.interpretation (isAbnormalResult
            lab.interpretation)
          source := jsOrStr lab.sourceSystem "LIS"
          category := "laboratory"
          importance := if isAbnormalResult lab.interpretation then "high"
            else "low"
          trend := some (calculateLabTrend lab allLabs i)
          imageUrl := none }]) ++ labEventsAux allLabs nowDate (i + 1) rest

/-- Lab-results section of `extractAllEvents`. -/
def labEvents (pd : PatientData) (nowDate : CalDate) : List Event :=
  match pd.labResults with
  | none => []
  | some labs => labEventsAux labs nowDate 0 labs

/-- Imaging extraction, one Event per study. -/
def imagingEventsAux (allImaging : Option (List ImagingStudy)) (i : Nat) :
    List ImagingStudy → List Event
  | [] => []
  | img :: rest =>
    { id := .imagingId i
      type := .imaging
      date := (img.date <|> img.studyDate).getD invalidDate
      title := some (jsStr img.modality ++ " Study")
      description := some (jsOrStr img.description
        (jsStr img.modality ++ " imaging study"))
      details := .img img.modality img.studyId img.findings
        (extractBodyRegion img.description)
        (determineImagingComparison img allImaging i)
      source := jsOrStr img.sourceSystem "PACS"
      category := "imaging"
      importance := assessImagingImportance img
      trend := none
      imageUrl := img.dicomUrl } :: imagingEventsAux allImaging (i + 1) rest

/-- Imaging section of `extractAllEvents`. -/
def imagingEvents (pd : PatientData) : List Event :=
  match pd.imaging with
  | none => []
  | some imgs => imagingEventsAux pd.imaging 0 imgs

/-- Pathology extraction: two Events per report, a collection-phase Event and
a report-phase Event carrying the turnaround time
`differenceInDays(reportDate, collectionDate)`. -/
def pathologyEventsAux (i : Nat) : List PathReport → List Event
  | [] => []
  | r :: rest =>
    { id := .pathologyCollectionId i
      type := .pathology
      date := r.collectionDate
      title := some "Tissue Sample Collection"
      description := some (jsStr r.specimenType ++
        " collected for pathological analysis")
      details := .pathCollection r.specimenType r.reportId "collection"
      source := jsOrStr r.sourceSystem "PATHOLOGY"
      category := "pathology"
      importance := "medium"
      trend := none
      imageUrl := none } ::
    { id := .pathologyReportId i
      type := .pathology
      date := r.reportDate
      title := some "Pathology Report Available"
      description := r.diagnosis
      details := .pathReport r.specimenType r.findings r.diagnosis r.reportId
        "report" (differenceInDays r.reportDate r.collectionDate)
      source := jsOrStr r.sourceSystem "PATHOLOGY"
      category := "pathology"
      importance := "high"
      trend := none
      imageUrl := none } :: pathologyEventsAux (i + 1) rest

/-- Pathology section of `extractAllEvents`. -/
def pathologyEvents (pd : PatientData) : List Event :=
  match pd.pathologyReports with
  | none => []
  | some reports => pathologyEventsAux 0 reports

/-- Genomics extraction: one Event when `genomics?.reportDate` exists (its id
embeds `Date.now()`). -/
def genomicsEvents (pd : PatientData) (now : Nat) : List Event :=
  match pd.genomics with
  | none => []
  | some g =>
    match g.reportDate with
    | none => []
    | some rd =>
      [{ id := .genomicsId now
         type := .genomics
         date := rd
         title := some "Genomic Profile Available"
         description := some ("Molecular analysis completed - " ++
           toString (match g.mutationProfile with
                     | some ms => ms.length
                     | none => 0) ++ " mutations identified")
         details := .genom g.mutationProfile g.tmb g.msi
           (identifyActionableMutations g.mutationProfile)
         source := "GENOMICS"
         category := "molecular"
         importance := "high"
         trend := none
         imageUrl := none }]

/-- Adverse-event extraction for one treatment course: each adverse event is
dated `addDays(startDate, Math.floor(Math.random() * 30) + 7)`; the draw
`Math.floor(Math.random() * 30)` for the `j`-th adverse event of treatment
`i` is modelled by `rand i j`. -/
def adverseEventsAux (t : Treatment) (i : Nat) (rand : Nat → Nat → Nat)
    (j : Nat) : List String → List Event
  | [] => []
  | ae :: rest =>
    { id := .adverseEventId i j
      type := .adverse_event
      date := addDays t.startDate ((rand i j : Int) + 7)
      title := some "Adverse Event Reported"
      description := some ae
      details := .adverse t.treatmentId ae (estimateAESeverity ae) "monitoring"
      source := jsOrStr t.sourceSystem "EMR"
      category := "safety"
      importance := "medium"
      trend := none
      imageUrl := none } :: adverseEventsAux t i rand (j + 1) rest

/-- Treatment extraction: per course a critical start Event, an end Event when
an end date exists, and the course's adverse events. -/
def treatmentEventsAux (pd : PatientData) (allTreatments : List Treatment)
    (rand : Nat → Nat → Nat) (i : Nat) : List Treatment → List Event
  | [] => []
  | t :: rest =>
    ({ id := .treatmentStartId i
       type := .treatment_start
       date := t.startDate
       title := some (formatTreatmentType t.ttype ++ " Started")
       description := some ("Initiated " ++ jsStr t.regimen)
       details := .trStart t.treatmentId t.ttype t.regimen
         (determineTreatmentIntent t pd)
         (determineTreatmentLine t allTreatments i)
       source := jsOrStr t.sourceSystem "EMR"
       category := "treatment"
       importance := "critical"
       trend := none
       imageUrl := none } ::
     (match t.endDate with
      | none => []
      | some endDate =>
        [{ id := .treatmentEndId i
           type := .treatment_end
           date := endDate
           title := some (formatTreatmentType t.ttype ++ " Completed")
           description := some ("Completed " ++ jsStr t.regimen ++ " - " ++
             jsStr t.response)
           details := .trEnd t.treatmentId t.ttype t.regimen t.response
             (differenceInDays endDate t.startDate) t.adverseEvents
           source := jsOrStr t.sourceSystem "EMR"
           category := "treatment"
           importance := "high"
           trend := none
           imageUrl := none }]) ++
     (match t.adverseEvents with
      | none => []
      | some aes => adverseEventsAux t i rand 0 aes)) ++
    treatmentEventsAux pd allTreatments rand (i + 1) rest

/-- Treatment section of `extractAllEvents`. -/
def treatmentEvents (pd : PatientData) (rand : Nat → Nat → Nat) : List Event :=
  match pd.treatments with
  | none => []
  | some ts => treatmentEventsAux pd ts rand 0 ts

/-- Clinical-trial extraction, one Event per enrollment. -/
def trialEventsAux (i : Nat) : List Trial → List Event
  | [] => []
  | t :: rest =>
    { id := .trialId i
      type := .clinical_trial
      date := t.enrollmentDate
      title := some "Clinical Trial Enrollment"
      description := some ("Enrolled in " ++ t.trialName)
      details := .trial t.trialId t.trialName t.status t.arm
        (extractTrialPhase t.trialName)
      source := "CLINICAL_TRIALS"
      category := "research"
      importance := "high"
      trend := none
      imageUrl := none } :: trialEventsAux (i + 1) rest

/-- Clinical-trial section of `extractAllEvents`. -/
def trialEvents (pd : PatientData) : List Event :=
  match pd.clinicalTrials with
  | none => []
  | some ts => trialEventsAux 0 ts

/-- `extractAllEvents`: the sections' pushes in source order.  `now` models
the `Date.now()` reads, `nowDate` the `new Date()` fallbacks, `rand` the
`Math.random()` draws.  (The source also computes `determineBaseDate` here
without using it.) -/
def extractAllEvents (pd : PatientData) (now : Nat) (nowDate : CalDate)
    (rand : Nat → Nat → Nat) : List Event :=
  diagnosisEvents pd now ++ historyEvents pd ++ labEvents pd nowDate ++
  imagingEvents pd ++ pathologyEvents pd ++ genomicsEvents pd now ++
  treatmentEvents pd rand ++ trialEvents pd

/-- `sortEventsByDate`: chronological (stable) sort by event date. -/
def sortEventsByDate (events : List Event) : List Event :=
  events.mergeSort (fun a b => dateLeB a.date b.date)

/-- One step of the `grouped[monthYear].push(event)` dictionary update:
append to the bucket with this key, or create a new bucket at the end
(JavaScript object keys keep insertion order). -/
def insertGrouped {α : Type} (g : List ((Int × Int) × List α))
    (k : Int × Int) (e : α) : List ((Int × Int) × List α) :=
  match g with
  | [] => [(k, [e])]
  | (k0, es) :: rest =>
    if k0 = k then (k0, es ++ [e]) :: rest
    else (k0, es) :: insertGrouped rest k e

/-- `groupEventsByPeriod` generically over anything carrying a date (the
source groups both raw and enriched events by duck typing). -/
def groupByPeriodAux {α : Type} (dateOf : α → CalDate) (events : List α) :
    List ((Int × Int) × List α) :=
  events.foldl (fun g e => insertGrouped g (monthKey (dateOf e)) e) []

/-- `groupEventsByPeriod` on raw Events. -/
def groupEventsByPeriod (events : List Event) :
    List ((Int × Int) × List Event) :=
  groupByPeriodAux Event.date events

/-- One `relatedEvents` entry (`eventId`, `type`, `daysDifference`,
`relationship`). -/
structure RelatedEvent where
  eventId : EventId
  rtype : EventType
  daysDifference : Int
  relationship : String
deriving DecidableEq

/-- `determineEventRelationship`: the fixed pairwise relationship table keyed
by the two event types, defaulting to "temporal_proximity". -/
def determineEventRelationship (event1 event2 : Event) : String :=
  match event1.type, event2.type with
  | .lab_result, .treatment_start => "pre_treatment_assessment"
  | .imaging, .treatment_start => "staging"
  | .pathology, .treatment_start => "diagnostic_confirmation"
  | .treatment_start, .adverse_event => "treatment_toxicity"
  | .imaging, .treatment_end => "response_assessment"
  | _, _ => "temporal_proximity"

/-- `findRelatedEvents`: all other events within a 7-day window. -/
def findRelatedEvents (event : Event) (allEvents : List Event)
    (currentIndex : Nat) : List RelatedEvent :=
  allEvents.enum.filterMap (fun p =>
    if p.1 = currentIndex then none
    else
      let daysDiff := (differenceInDays event.date p.2.date).natAbs
      if daysDiff ≤ 7 then
        some ⟨p.2.id, p.2.type, (daysDiff : Int),
              determineEventRelationship event p.2⟩
      else none)

/-- `calculateDaysFromDiagnosis`: signed day offset from the first diagnosis
Event, or 0 when none exists. -/
def calculateDaysFromDiagnosis (event : Event) (allEvents : List Event) :
    Int :=
  match allEvents.find? (fun e => decide (e.type = EventType.diagnosis)) with
  | none => 0
  | some diagnosisEvent => differenceInDays event.date diagnosisEvent.date

/-- `determineClinicalPhase`: threshold classification of the day offset from
the first diagnosis Event; "unknown" when none exists. -/
def determineClinicalPhase (event : Event) (allEvents : List Event)
    (currentIndex : Nat) : String :=
  match allEvents.find? (fun e => decide (e.type = EventType.diagnosis)) with
  | none => "unknown"
  | some diagnosisEvent =>
    let daysFromDiagnosis := differenceInDays event.date diagnosisEvent.date
    if daysFromDiagnosis < 0 then "pre_diagnosis"
    else if daysFromDiagnosis ≤ 30 then "initial_workup"
    else if daysFromDiagnosis ≤ 90 then "primary_treatment"
    else if daysFromDiagnosis ≤ 365 then "active_treatment"
    else "long_term_follow_up"

/-- The `sameTestEvents` filter inside `calculateEventTrend`: the lab events
of the same test name.  (`calculateEventTrend` is null for non-lab events;
otherwise it finds this event among the same-test lab events by id and
compares its value to the immediately preceding one with 10% thresholds.
JavaScript `findIndex` returning -1 lands in the `baseline` arm; the inner
`none` arm is unreachable since a found index `j+1` has a predecessor.
Division by a zero previous value follows the float semantics.) -/
def sameTestEvents (event : Event) (allEvents : List Event) : List Event :=
  allEvents.filter (fun e =>
    decide (e.type = EventType.lab_result) &&
    decide (e.details.testNameField = event.details.testNameField))

/-- `calculateEventTrend` (continued): trend classification against the
immediately preceding same-test event, with the 10% thresholds. -/
def calculateEventTrend (event : Event) (allEvents : List Event)
    (currentIndex : Nat) : Option String :=
  if event.type ≠ EventType.lab_result then none
  else
    match (sameTestEvents event allEvents).findIdx?
        (fun e => decide (e.id = event.id)) with
    | none => some "baseline"
    | some 0 => some "baseline"
    | some (j + 1) =>
      match (sameTestEvents event allEvents)[j]? with
      | none => some "stable"
      | some previousEvent =>
        match event.details.valueField, previousEvent.details.valueField with
        | some currentValue, some previousValue =>
          if previousValue = 0 then
            (if 0 < currentValue then some "improving"
             else if currentValue < 0 then some "declining"
             else some "stable")
          else
            let changePercent :=
              (currentValue - previousValue) / previousValue * 100
            if 10 < changePercent then some "improving"
            else if changePercent < -10 then some "declining"
            else some "stable"
        | _, _ => some "stable"

/-- An Event plus the derived context fields added by
`enrichEventsWithContext` (the spread copies the Event and the `trend`
assignment overrides the event-level field). -/
structure EnrichedEvent where
  base : Event
  dayFromDiagnosis : Int
  sequentialIndex : Nat
  relatedEvents : List RelatedEvent
  clinicalPhase : String
  trend : Option String
deriving DecidableEq

/-- `enrichEventsWithContext`: map each event, in order, to its enriched
form. -/
def enrichEventsWithContext (events : List Event) : List EnrichedEvent :=
  events.enum.map (fun p =>
    { base := p.2
      dayFromDiagnosis := calculateDaysFromDiagnosis p.2 events
      sequentialIndex := p.1
      relatedEvents := findRelatedEvents p.2 events p.1
      clinicalPhase := determineClinicalPhase p.2 events p.1
      trend := calculateEventTrend p.2 events p.1 })

/-- The `timespan` object of the pipeline output (`totalMonths` is
`Math.round(totalDays / 30)`, i.e. `⌊x + 1/2⌋`). -/
structure Timespan where
  startDate : CalDate
  endDate : CalDate
  totalDays : Int
  totalMonths : Int
deriving DecidableEq

/-- `calculateTimespan`: null for an empty list, else first/last dates and
their distance. -/
def calculateTimespan (events : List Event) : Option Timespan :=
  match events with
  | [] => none
  | first :: _ =>
    match events.getLast? with
    | none => none
    | some last =>
      some { startDate := first.date
             endDate := last.date
             totalDays := differenceInDays last.date first.date
             totalMonths :=
               ⌊(differenceInDays last.date first.date : ℚ) / 30 + 1 / 2⌋ }

/-- `generateComprehensiveLongitudinalHistory` (lines 27-47): extract, sort
and enrich, then assemble the output object.  The object literal's
`diseaseProgression` field calls `this.analyzeDiseaseProgression`, whose
first field evaluates `this.analyzeImagingProgression(imagingEvents)` — a
method that `LongitudinalHistoryService` never defines; it exists only on
the separate `LongitudinalAnalytics` class, as do the other methods this
path needs (`analyzeBiomarkerProgression`, `determineOverallTrajectory`,
`identifyProgressionEvents`, `identifyStablePeriods`) and the later fields'
`mapCareTeamInvolvement`, `assessDataQuality` and
`identifyClinicalDecisionPoints`.  Calling the undefined method raises a
`TypeError` for every input (the method lookup fails before any argument is
inspected), so the function throws before the output object is ever
constructed.  Every stage reached earlier — extraction, sorting, enrichment,
the timeline and insights computations and the output fields up to
`treatmentJourney` — goes through methods that are defined and total on
well-typed records, and their results are discarded by the throw; the three
`const` bindings of lines 28-30 are kept here to model that order. -/
def generateComprehensiveLongitudinalHistory (pd : PatientData) (now : Nat)
    (nowDate : CalDate) (rand : Nat → Nat → Nat) : Except String Unit :=
  let events := extractAllEvents pd now nowDate rand
  let sortedEvents := sortEventsByDate events
  let enrichedEvents := enrichEventsWithContext sortedEvents
  .error "TypeError: this.analyzeImagingProgression is not a function"

/-- Result object of `calculateLinearTrend`. -/
structure LinearTrend where
  slope : JsNum
  intercept : JsNum
  correlation : CorrVal
deriving DecidableEq

/-- `calculateLinearTrend`: ordinary least squares over the values indexed
0..n-1, plus the Pearson correlation. -/
def calculateLinearTrend (values : List ℚ) : LinearTrend :=
  let n : ℚ := values.length
  let x : List ℚ := (List.range values.length).map (fun i => (i : ℚ))
  let sumX := x.sum
  let sumY := values.sum
  let sumXY := ((x.zip values).map (fun p => p.1 * p.2)).sum
  let sumXX := (x.map (fun xi => xi * xi)).sum
  let slope := jsDiv (.num (n * sumXY - sumX * sumY))
    (.num (n * sumXX - sumX * sumX))
  let intercept := jsDiv (jsSub (.num sumY) (jsMul slope (.num sumX))) (.num n)
  let meanX := sumX / n
  let meanY := sumY / n
  let numerator :=
    ((x.zip values).map (fun p => (p.1 - meanX) * (p.2 - meanY))).sum
  let sqX := (x.map (fun xi => (xi - meanX) * (xi - meanX))).sum
  let sqY := (values.map (fun yi => (yi - meanY) * (yi - meanY))).sum
  { slope := slope
    intercept := intercept
    correlation := mkCorrelation numerator sqX sqY }

/-- `interpretBiomarkerChange`: per-test interpretation strings selected by
the sign and magnitude of the percent change. -/
def interpretBiomarkerChange (testName : Option String)
    (changePercent : JsNum) : String :=
  match testName with
  | some "Complete Blood Count" =>
    if jsGtQ changePercent 0 then
      (if jsLtQ changePercent (-20) then "Concerning blood count decline"
       else "Mild hematologic changes")
    else
      (if jsGtQ changePercent 20 then "Recovery of blood counts"
       else "Stable hematology")
  | some "Squamous Cell Carcinoma Antigen" =>
    if jsGtQ changePercent 0 then
      (if jsGtQ changePercent 50 then "Possible disease progression"
       else "Stable tumor markers")
    else
      (if jsLtQ changePercent (-30) then "Excellent tumor response"
       else "Good tumor response")
  | _ => "Unknown clinical significance"

/-- Result object of `calculateBiomarkerTrend`; fields absent from the early
returns are `none` (JavaScript `undefined`). -/
structure BiomarkerTrendResult where
  status : String
  dataPoints : Nat
  trend : Option String
  slope : Option JsNum
  correlation : Option CorrVal
  changePercent : Option JsNum
  firstValue : Option ℚ
  lastValue : Option ℚ
  clinicalInterpretation : Option String
deriving DecidableEq

/-- `calculateBiomarkerTrend`: guard for at least two events and two numeric
values, then linear trend, percent change and interpretation.  The `[]` arm
after the numeric guard is unreachable (the guard forces at least two
values). -/
def calculateBiomarkerTrend (events : List Event) : BiomarkerTrendResult :=
  if events.length < 2 then
    ⟨"insufficient_data", events.length, none, none, none, none, none, none,
     none⟩
  else
    let values := events.filterMap (fun e => e.details.valueField)
    if values.length < 2 then
      ⟨"non_numeric_data", values.length, none, none, none, none, none, none,
       none⟩
    else
      match values with
      | [] =>
        ⟨"non_numeric_data", 0, none, none, none, none, none, none, none⟩
      | v0 :: vrest =>
        let lastV := (v0 :: vrest).getLast (List.cons_ne_nil v0 vrest)
        let trend := calculateLinearTrend (v0 :: vrest)
        let changePercent :=
          jsMul (jsDiv (.num (lastV - v0)) (.num v0)) (.num 100)
        { status := "analyzed"
          dataPoints := (v0 :: vrest).length
          trend := some (if jsGtQ trend.slope 0 then "increasing"
            else if jsLtQ trend.slope 0 then "decreasing" else "stable")
          slope := some trend.slope
          correlation := some trend.correlation
          changePercent := some changePercent
          firstValue := some v0
          lastValue := some lastV
          clinicalInterpretation := some (interpretBiomarkerChange
            (match events.head? with
             | some e => e.details.testNameField
             | none => none) changePercent) }

/-- Response-assessment object (`assessImagingDuringTreatment` /
`assessBiomarkersDuringTreatment` results; only `assessment` is read by the
effectiveness scorer). -/
structure RespAssessment where
  status : String
  assessment : String
  confidence : Option ℚ
deriving DecidableEq

/-- A treatment period as assembled by `identifyTreatmentPeriods`. -/
structure TreatmentPeriodRec where
  startEvent : Event
  endEvent : Option Event
  relatedEvents : List Event
deriving DecidableEq

/-- `calculateTreatmentEffectiveness`: 0.5 baseline, plus clinical-response,
imaging and biomarker contributions, clamped to [0, 1]. -/
def calculateTreatmentEffectiveness (period : TreatmentPeriodRec)
    (imagingResponse biomarkerResponse : RespAssessment) : ℚ :=
  let clinicalResponse : Option String :=
    period.endEvent.bind (fun e => e.details.responseField)
  let s1 := (1 : ℚ) / 2 +
    (match clinicalResponse with
     | some cr =>
       if jsIncludes cr "complete" then (4 : ℚ) / 10
       else if jsIncludes cr "partial" then 3 / 10
       else if jsIncludes cr "stable" then 1 / 10
       else 0
     | none => 0)
  let s2 := s1 +
    (if imagingResponse.assessment = "responding" then (2 : ℚ) / 10
     else if imagingResponse.assessment = "stable_disease" then 1 / 10
     else 0)
  let s3 := s2 +
    (if biomarkerResponse.assessment = "biomarker_response" then (1 : ℚ) / 10
     else 0)
  min 1 (max 0 s3)

/-- The feature fields of `extractPredictiveFeatures` that are read by
`calculateRiskScore` (the remaining feature fields do not enter the score). -/
structure RiskFeatures where
  age : Option Int
  stage : Option String
  bestResponse : String
  actionableMutations : Option Nat
  tmb : Option ℚ
deriving DecidableEq

/-- The risk score before the final clamp: 0.5 baseline plus the age, stage,
response and molecular adjustments.  `if (features.age)` is JavaScript
truthiness: a missing age and an age of 0 both skip the age factor; a missing
`actionableMutations`/`tmb` fails the `> 0`/`> 10` comparison. -/
def calculateRiskScoreRaw (features : RiskFeatures) : ℚ :=
  let s1 := (1 : ℚ) / 2 +
    (match features.age with
     | some age =>
       if age ≠ 0 then
         (if 65 < age then (1 : ℚ) / 10
          else if age < 50 then -(1 / 20)
          else 0)
       else 0
     | none => 0)
  let s2 := s1 +
    (match features.stage with
     | some stage =>
       if stage ≠ "" then
         (if jsIncludes stage "IV" then (3 : ℚ) / 10
          else if jsIncludes stage "III" then 2 / 10
          else if jsIncludes stage "II" then 1 / 10
          else 0)
       else 0
     | none => 0)
  let s3 := s2 +
    (if features.bestResponse = "complete response" then -((2 : ℚ) / 10)
     else if features.bestResponse = "partial response" then -(1 / 10)
     else if features.bestResponse = "progressive disease" then 2 / 10
     else 0)
  let s4 := s3 +
    (match features.actionableMutations with
     | some n => if 0 < n then -((1 : ℚ) / 10) else 0
     | none => 0)
  s4 +
    (match features.tmb with
     | some tmb => if 10 < tmb then -((1 : ℚ) / 20) else 0
     | none => 0)

/-- `calculateRiskScore`: the raw score clamped to [0, 1]. -/
def calculateRiskScore (features : RiskFeatures) : ℚ :=
  min 1 (max 0 (calculateRiskScoreRaw features))

/-- Modelled from the spec's words (claim C3): the risk score as the clamp of
0.5 plus exactly the deltas the claim lists — age>65: +0.10; stage containing
"IV": +0.30, "III": +0.20, "II": +0.10; best response complete: -0.20,
partial: -0.10, progressive disease: +0.20; at least one actionable mutation:
-0.10; TMB>10: -0.05.  (No delta for ages below 50.) -/
def riskScoreSpecListed (features : RiskFeatures) : ℚ :=
  let dAge : ℚ := match features.age with
    | some age => if 65 < age then 1 / 10 else 0
    | none => 0
  let dStage : ℚ := match features.stage with
    | some stage =>
      if jsIncludes stage "IV" then 3 / 10
      else if jsIncludes stage "III" then 2 / 10
      else if jsIncludes stage "II" then 1 / 10
      else 0
    | none => 0
  let dResp : ℚ :=
    if features.bestResponse = "complete response" then -(2 / 10)
    else if features.bestResponse = "partial response" then -(1 / 10)
    else if features.bestResponse = "progressive disease" then 2 / 10
    else 0
  let dMut : ℚ := match features.actionableMutations with
    | some n => if 0 < n then -(1 / 10) else 0
    | none => 0
  let dTmb : ℚ := match features.tmb with
    | some tmb => if 10 < tmb then -(1 / 20) else 0
    | none => 0
  min 1 (max 0 (1 / 2 + dAge + dStage + dResp + dMut + dTmb))

/-- Modelled from the amended claim C3: the same delta list extended with the
adjustment the code actually applies — a present, non-zero age strictly below
50 contributes -0.05 (and, matching JavaScript truthiness, an age of 0 counts
as absent). -/
def riskScoreSpecAmended (features : RiskFeatures) : ℚ :=
  let dAgeUp : ℚ := match features.age with
    | some age => if age ≠ 0 ∧ 65 < age then 1 / 10 else 0
    | none => 0
  let dAgeDown : ℚ := match features.age with
    | some age => if age ≠ 0 ∧ age < 50 then -(1 / 20) else 0
    | none => 0
  let dStage : ℚ := match features.stage with
    | some stage =>
      if jsIncludes stage "IV" then 3 / 10
      else if jsIncludes stage "III" then 2 / 10
      else if jsIncludes stage "II" then 1 / 10
      else 0
    | none => 0
  let dResp : ℚ :=
    if features.bestResponse = "complete response" then -(2 / 10)
    else if features.bestResponse = "partial response" then -(1 / 10)
    else if features.bestResponse = "progressive disease" then 2 / 10
    else 0
  let dMut : ℚ := match features.actionableMutations with
    | some n => if 0 < n then -(1 / 10) else 0
    | none => 0
  let dTmb : ℚ := match features.tmb with
    | some tmb => if 10 < tmb then -(1 / 20) else 0
    | none => 0
  min 1 (max 0 (1 / 2 + dAgeUp + dAgeDown + dStage + dResp + dMut + dTmb))

/-- Fixture: a treatment-start Event (witness data). -/
def tbStartEvent : Event :=
  { id := .treatmentStartId 0
    type := .treatment_start
    date := ⟨2024, 1, 1⟩
    title := some "Chemotherapy Started"
    description := some "Initiated FOLFOX"
    details := .trStart (some "t1") "chemotherapy" (some "FOLFOX") "curative" 1
    source := "EMR"
    category := "treatment"
    importance := "critical"
    trend := none
    imageUrl := none }

/-- Fixture: a treatment-end Event with a complete clinical response. -/
def tbEndEvent : Event :=
  { id := .treatmentEndId 0
    type := .treatment_end
    date := ⟨2024, 3, 1⟩
    title := some "Chemotherapy Completed"
    description := some "Completed FOLFOX - complete response"
    details := .trEnd (some "t1") "chemotherapy" (some "FOLFOX")
      (some "complete response") 60 none
    source := "EMR"
    category := "treatment"
    importance := "high"
    trend := none
    imageUrl := none }

/-- Fixture: a treatment period ending in a complete response. -/
def periodComplete : TreatmentPeriodRec :=
  ⟨tbStartEvent, some tbEndEvent, []⟩

/-- Fixture: a responding imaging assessment. -/
def imgResponding : RespAssessment := ⟨"response", "responding", some (8 / 10)⟩

/-- Fixture: a biomarker-response assessment. -/
def bioResponding : RespAssessment :=
  ⟨"improving", "biomarker_response", some (7 / 10)⟩

/-- Fixture: features with only an age of 40. -/
def featAge40 : RiskFeatures := ⟨some 40, none, "unknown", none, none⟩

/-- Fixture: features with only an age of 0 (JavaScript-falsy). -/
def featAge0 : RiskFeatures := ⟨some 0, none, "unknown", none, none⟩

/-- Fixture: features with only an age of 55. -/
def featAge55 : RiskFeatures := ⟨some 55, none, "unknown", none, none⟩

theorem dateLe_refl (a : CalDate) : dateLe a a := by
  unfold dateLe; omega

theorem dateLe_trans {a b c : CalDate} (h1 : dateLe a b) (h2 : dateLe b c) :
    dateLe a c := by
  rcases h1 with h1 | ⟨e1, h1⟩ <;> rcases h2 with h2 | ⟨e2, h2⟩
  · exact Or.inl (h1.trans h2)
  · exact Or.inl (e2 ▸ h1)
  · exact Or.inl (e1 ▸ h2)
  · refine Or.inr ⟨e1.trans e2, ?_⟩
    rcases h1 with h1 | ⟨f1, h1⟩ <;> rcases h2 with h2 | ⟨f2, h2⟩
    · exact Or.inl (h1.trans h2)
    · exact Or.inl (f2 ▸ h1)
    · exact Or.inl (f1 ▸ h2)
    · exact Or.inr ⟨f1.trans f2, h1.trans h2⟩

theorem dateLe_total (a b : CalDate) : dateLe a b ∨ dateLe b a := by
  unfold dateLe; omega

theorem keyLe_trans {a b c : Int × Int} (h1 : keyLe a b) (h2 : keyLe b c) :
    keyLe a c := by
  unfold keyLe at *; omega

theorem keyLt_of_keyLe_ne {a b : Int × Int} (h : keyLe a b) (hne : a ≠ b) :
    keyLt a b := by
  rcases a with ⟨a1, a2⟩; rcases b with ⟨b1, b2⟩
  have hne2 : ¬(a1 = b1 ∧ a2 = b2) := by
    intro hc
    exact hne (by rw [hc.1, hc.2])
  unfold keyLe at h; unfold keyLt
  omega

theorem keyLt_asymm_le {a b : Int × Int} (h1 : keyLt a b) (h2 : keyLe b a) :
    False := by
  unfold keyLt at h1; unfold keyLe at h2; omega

/-- The month key is monotone with respect to chronological order. -/
theorem monthKey_mono {a b : CalDate} (h : dateLe a b) :
    keyLe (monthKey a) (monthKey b) := by
  unfold dateLe at h; unfold keyLe monthKey; dsimp only; omega

/-- Fixture: features with stage IV, age 70 and progressive best response. -/
def featIV70 : RiskFeatures :=
  ⟨some 70, some "Stage IV", "progressive disease", none, none⟩

/-- Fixture: a lab-result Event with a given id index, test name and value. -/
def mkLabEvent (j : Nat) (testName : String) (v : ℚ) (d : CalDate) : Event :=
  { id := .labObsId 0 j
    type := .lab_result
    date := d
    title := some (testName ++ " Result")
    description := some (testName ++ ": " ++ showVal (some v))
    details := .labObs testName (some v) (getLabUnit testName) none false
    source := "LIS"
    category := "laboratory"
    importance := assessLabImportance testName (some v)
    trend := none
    imageUrl := none }

/-- Fixture: a same-test series whose numeric values are [10, 10, 10]. -/
def labSeriesTen : List Event :=
  [mkLabEvent 0 "CBC" 10 ⟨2024, 1, 1⟩, mkLabEvent 1 "CBC" 10 ⟨2024, 2, 1⟩,
   mkLabEvent 2 "CBC" 10 ⟨2024, 3, 1⟩]

/-- Fixture: a treatment course with one adverse event ("nausea"). -/
def aeTreatment : Treatment :=
  { treatmentId := some "t1"
    ttype := "chemotherapy"
    regimen := some "FOLFOX"
    startDate := ⟨2024, 1, 1⟩
    endDate := none
    response := none
    adverseEvents := some ["nausea"]
    sourceSystem := none }

/-- Fixture: a record whose only section is one treatment with one adverse
event. -/
def aeRecord : PatientData :=
  { abhaId := "p1", cancerType := none, medicalHistory := none,
    labResults := none, imaging := none, pathologyReports := none,
    genomics := none, treatments := some [aeTreatment],
    clinicalTrials := none }

/-- Fixture: a dated cancer-type section. -/
def diagCancerType : CancerType :=
  { primary := some "NSCLC", stage := some "IIIA", histology := none,
    grade := none, diagnosisDate := some ⟨2023, 6, 1⟩ }

/-- Fixture: a record whose only content is a dated cancer diagnosis. -/
def diagRecord : PatientData :=
  { abhaId := "p2", cancerType := some diagCancerType,
    medicalHistory := none, labResults := none, imaging := none,
    pathologyReports := none, genomics := none, treatments := none,
    clinicalTrials := none }

/-- Fixture: a pathology report whose report date precedes its collection
date by 5 days. -/
def pathNegReport : PathReport :=
  { collectionDate := ⟨2023, 5, 10⟩
    reportDate := ⟨2023, 5, 5⟩
    specimenType := some "biopsy"
    reportId := some "r1"
    findings := none
    diagnosis := some "adenocarcinoma"
    sourceSystem := none }

/-- Fixture: a record whose only section is the pathology report above. -/
def pathNegRecord : PatientData :=
  { abhaId := "p3", cancerType := none, medicalHistory := none,
    labResults := none, imaging := none,
    pathologyReports := some [pathNegReport], genomics := none,
    treatments := none, clinicalTrials := none }

/-- Modelled from the amended claim C8's words: the 10%-threshold trend rule
comparing a lab event's numeric value against its predecessor's (rising more
than 10%: "improving"; falling more than 10%: "declining"; otherwise, or when
either value is non-numeric, "stable"; a zero previous value follows the
JavaScript infinity semantics). -/
def specTrendRule (previous current : Event) : String :=
  match current.details.valueField, previous.details.valueField with
  | some c, some p =>
    if p = 0 then
      (if 0 < c then "improving" else if c < 0 then "declining" else "stable")
    else if 10 < (c - p) / p * 100 then "improving"
    else if (c - p) / p * 100 < -10 then "declining"
    else "stable"
  | _, _ => "stable"

/-- Fixture: a rising tumor-marker series (CEA 10 then 20). -/
def ceaFirst : Event := mkLabEvent 0 "CEA" 10 ⟨2024, 1, 1⟩

/-- Fixture: the second CEA sample, doubled in value. -/
def ceaSecond : Event := mkLabEvent 1 "CEA" 20 ⟨2024, 2, 1⟩

/-- Fixture: a diagnosis Event dated 2023-06-01. -/
def dgEvent : Event :=
  { id := .diagnosisId 0
    type := .diagnosis
    date := ⟨2023, 6, 1⟩
    title := some "Cancer Diagnosis"
    description := some "Diagnosed with NSCLC"
    details := .diag (some "NSCLC") (some "IIIA") none none
    source := "EMR"
    category := "diagnosis"
    importance := "critical"
    trend := none
    imageUrl := none }

/-- Fixture: the enriched form of `ceaFirst` in the list
`[dgEvent, ceaFirst]`. -/
def ceaEnriched : EnrichedEvent :=
  { base := ceaFirst
    dayFromDiagnosis := calculateDaysFromDiagnosis ceaFirst [dgEvent, ceaFirst]
    sequentialIndex := 1
    relatedEvents := findRelatedEvents ceaFirst [dgEvent, ceaFirst] 1
    clinicalPhase := determineClinicalPhase ceaFirst [dgEvent, ceaFirst] 1
    trend := calculateEventTrend ceaFirst [dgEvent, ceaFirst] 1 }

/-- A canonical record with every optional section absent. -/
def emptyRecord (pid : String) : PatientData :=
  { abhaId := pid, cancerType := none, medicalHistory := none,
    labResults := none, imaging := none, pathologyReports := none,
    genomics := none, treatments := none, clinicalTrials := none }

theorem riskSum_shape (A A1 A2 S S2 R M T : ℚ) (hA : A = A1 + A2)
    (hS : S = S2) :
    ((((1 / 2 + A) + S) + R) + M) + T =
      1 / 2 + A1 + A2 + S2 + R + M + T := by
  rw [hA, hS]; ring

theorem clamp01_bounds (q : ℚ) : 0 ≤ min 1 (max 0 q) ∧ min 1 (max 0 q) ≤ 1 :=
  ⟨le_min (by norm_num) (le_max_left 0 q), min_le_left 1 _⟩

/-- Claim C2: the treatment-period effectiveness score is always in [0, 1],
and a period whose clinical response contains "complete", with a responding
imaging assessment and a biomarker-response biomarker assessment, scores
exactly 1 (0.5 + 0.4 + 0.2 + 0.1 = 1.2, clamped to 1.0). -/
theorem treatmentEffectiveness_bounds_and_complete
    (period : TreatmentPeriodRec) (img bio : RespAssessment) :
    (0 ≤ calculateTreatmentEffectiveness period img bio ∧
      calculateTreatmentEffectiveness period img bio ≤ 1) ∧
    ((∃ cr, period.endEvent.bind (fun e => e.details.responseField) = some cr
        ∧ jsIncludes cr "complete" = true) →
      img.assessment = "responding" →
      bio.assessment = "biomarker_response" →
      calculateTreatmentEffectiveness period img bio = 1) := by
  constructor
  · unfold calculateTreatmentEffectiveness
    exact clamp01_bounds _
  · rintro ⟨cr, hcr, hinc⟩ himg hbio
    unfold calculateTreatmentEffectiveness
    rw [hcr, himg, hbio]
    simp only [hinc]
    norm_num

/-- Witness for C2 at a concrete period with a complete response, responding
imaging and responding biomarkers. -/
theorem treatmentEffectiveness_complete_witness :
    calculateTreatmentEffectiveness periodComplete imgResponding
      bioResponding = 1 :=
  (treatmentEffectiveness_bounds_and_complete periodComplete imgResponding
    bioResponding).2 ⟨"complete response", rfl, by decide⟩ rfl rfl

/-- Counterexample to claim C3 as stated: a feature vector whose only datum
is age 40 scores 0.45 under the code (the unlisted under-50 delta fires) but
0.5 under the claim's delta list. -/
theorem riskScore_age40_counterexample :
    calculateRiskScore featAge40 = 9 / 20 ∧
    riskScoreSpecListed featAge40 = 1 / 2 ∧
    calculateRiskScore featAge40 ≠ riskScoreSpecListed featAge40 := by
  have h1 : calculateRiskScore featAge40 = 9 / 20 := by
    unfold calculateRiskScore calculateRiskScoreRaw featAge40
    norm_num
    rw [if_neg (by decide), if_neg (by decide), if_neg (by decide)]
    norm_num
  have h2 : riskScoreSpecListed featAge40 = 1 / 2 := by
    unfold riskScoreSpecListed featAge40
    norm_num
    rw [if_neg (by decide), if_neg (by decide), if_neg (by decide)]
    norm_num
  exact ⟨h1, h2, by rw [h1, h2]; norm_num⟩

/-- Claim C3 (amended): the risk score equals the clamp to [0, 1] of 0.5 plus
the claimed deltas extended with the -0.05 adjustment for a present, non-zero
age below 50; in particular any feature vector with a stage containing "IV",
age 70 and best response "progressive disease" scores at least 0.9 and at
most 1. -/
theorem riskScore_deltas_amended (f : RiskFeatures) :
    calculateRiskScore f = riskScoreSpecAmended f ∧
    (∀ s, f.stage = some s → jsIncludes s "IV" = true → f.age = some 70 →
      f.bestResponse = "progressive disease" →
      9 / 10 ≤ calculateRiskScore f ∧ calculateRiskScore f ≤ 1) := by
  rcases f with ⟨age, stage, resp, am, tm⟩
  constructor
  · unfold calculateRiskScore calculateRiskScoreRaw riskScoreSpecAmended
    dsimp only
    congr 2
    rcases age with _ | a <;> rcases stage with _ | s <;> dsimp only <;>
      apply riskSum_shape
    all_goals
      first
      | (norm_num; done)
      | (split_ifs <;> first | (norm_num; done) | (exfalso; omega))
      | (by_cases hs : s = ""
         · subst hs; decide
         · rw [if_pos hs])
  · rintro s hs hIV hage hresp
    subst hs; subst hage; subst hresp
    unfold calculateRiskScore calculateRiskScoreRaw
    dsimp only
    have hne : s ≠ "" := by
      intro h
      rw [h] at hIV
      exact absurd hIV (by decide)
    rw [if_pos hne, if_pos hIV,
      if_neg (show ¬("progressive disease" = "complete response") by decide),
      if_neg (show ¬("progressive disease" = "partial response") by decide),
      if_pos (show "progressive disease" = "progressive disease" from rfl)]
    refine ⟨?_, min_le_left _ _⟩
    refine le_min (by norm_num) (le_trans ?_ (le_max_right 0 _))
    rcases am with _ | n <;> rcases tm with _ | t <;> dsimp only
    all_goals try (split_ifs <;> norm_num)
    all_goals omega

/-- Witness for C3 (amended) at stage "Stage IV", age 70, best response
"progressive disease". -/
theorem riskScore_deltas_amended_witness :
    calculateRiskScore featIV70 = riskScoreSpecAmended featIV70 ∧
    (9 / 10 ≤ calculateRiskScore featIV70 ∧
      calculateRiskScore featIV70 ≤ 1) :=
  ⟨(riskScore_deltas_amended featIV70).1,
   (riskScore_deltas_amended featIV70).2 "Stage IV" rfl (by decide) rfl rfl⟩

/-- Counterexample to claim C10 as stated: age 0 is non-null and strictly
below 50, yet the risk score is not reduced at all relative to an otherwise
identical feature vector with age 55 (JavaScript `if (features.age)` treats
0 as absent). -/
theorem riskScore_age0_counterexample :
    calculateRiskScoreRaw featAge0 = calculateRiskScoreRaw featAge55 ∧
    calculateRiskScoreRaw featAge0 ≠
      calculateRiskScoreRaw featAge55 - 1 / 20 := by
  have e1 : calculateRiskScoreRaw featAge0 = 1 / 2 := by
    unfold calculateRiskScoreRaw featAge0
    norm_num
    rw [if_neg (by decide), if_neg (by decide), if_neg (by decide)]
  have e2 : calculateRiskScoreRaw featAge55 = 1 / 2 := by
    unfold calculateRiskScoreRaw featAge55
    norm_num
    rw [if_neg (by decide), if_neg (by decide), if_neg (by decide)]
  rw [e1, e2]
  norm_num

/-- Claim C10 (amended): a present, non-zero age strictly below 50 lowers the
pre-clamp risk score by exactly 0.05 relative to an otherwise identical
feature vector with age between 50 and 65. -/
theorem riskScore_under50_reduction (f : RiskFeatures) (a b : Int)
    (ha0 : a ≠ 0) (ha : a < 50) (hb1 : 50 ≤ b) (hb2 : b ≤ 65) :
    calculateRiskScoreRaw { f with age := some a } =
      calculateRiskScoreRaw { f with age := some b } - 1 / 20 := by
  unfold calculateRiskScoreRaw
  dsimp only
  rw [if_pos ha0, if_neg (show ¬(65 < a) by omega), if_pos ha,
    if_pos (show b ≠ 0 by omega), if_neg (show ¬(65 < b) by omega),
    if_neg (show ¬(b < 50) by omega)]
  ring

/-- Witness for C10 (amended) at ages 40 and 55. -/
theorem riskScore_under50_reduction_witness :
    calculateRiskScoreRaw { featAge0 with age := some 40 } =
      calculateRiskScoreRaw { featAge0 with age := some 55 } - 1 / 20 :=
  riskScore_under50_reduction featAge0 40 55 (by decide) (by decide)
    (by decide) (by decide)

/-- Claim C5: on any same-test series whose numeric values are [10, 10, 10],
the biomarker trend computation returns trend "stable" with changePercent 0,
and the Pearson correlation is NaN (zero variance); the NaN is returned as
data in the result object, not raised. -/
theorem biomarkerTrend_constant_series (events : List Event)
    (hv : events.filterMap (fun e => e.details.valueField) = [10, 10, 10]) :
    (calculateBiomarkerTrend events).status = "analyzed" ∧
    (calculateBiomarkerTrend events).trend = some "stable" ∧
    (calculateBiomarkerTrend events).changePercent = some (.num 0) ∧
    (calculateBiomarkerTrend events).correlation = some .nan := by
  have h3 : 3 ≤ events.length := by
    have h := List.length_filterMap_le (fun e => e.details.valueField) events
    rw [hv] at h
    simpa using h
  simp only [calculateBiomarkerTrend]
  rw [hv]
  rw [if_neg (show ¬(events.length < 2) by omega)]
  norm_num
  have hr : List.range 3 = [0, 1, 2] := by decide
  have hlin : calculateLinearTrend [(10 : ℚ), 10, 10] =
      { slope := .num 0, intercept := .num 10, correlation := .nan } := by
    unfold calculateLinearTrend
    norm_num [hr, mkCorrelation, jsDiv, jsSub, jsMul, jsNeg, jsAdd]
  rw [hlin]
  norm_num [jsGtQ, jsLtQ, jsDiv, jsMul]

/-- Witness for C5 at a concrete three-sample "CBC" series of constant
value 10. -/
theorem biomarkerTrend_constant_series_witness :
    (calculateBiomarkerTrend labSeriesTen).status = "analyzed" ∧
    (calculateBiomarkerTrend labSeriesTen).trend = some "stable" ∧
    (calculateBiomarkerTrend labSeriesTen).changePercent =
      some (.num 0) ∧
    (calculateBiomarkerTrend labSeriesTen).correlation = some .nan :=
  biomarkerTrend_constant_series labSeriesTen rfl

/-- Claim C1 (code bug): extraction is not deterministic.  On a record with
one treatment carrying one adverse event, two runs that differ only in the
`Math.random()` draw produce different Event lists (the adverse event lands
on day 8 in one run and day 9 in the other), and two runs that differ only
in `Date.now()` give the diagnosis Event different ids. -/
theorem extraction_nondeterministic :
    extractAllEvents aeRecord 0 ⟨2024, 6, 1⟩ (fun _ _ => 0) ≠
      extractAllEvents aeRecord 0 ⟨2024, 6, 1⟩ (fun _ _ => 1) ∧
    (extractAllEvents aeRecord 0 ⟨2024, 6, 1⟩ (fun _ _ => 0)).map
      Event.date = [⟨2024, 1, 1⟩, ⟨2024, 1, 8⟩] ∧
    (extractAllEvents aeRecord 0 ⟨2024, 6, 1⟩ (fun _ _ => 1)).map
      Event.date = [⟨2024, 1, 1⟩, ⟨2024, 1, 9⟩] ∧
    extractAllEvents diagRecord 0 ⟨2024, 6, 1⟩ (fun _ _ => 0) ≠
      extractAllEvents diagRecord 1 ⟨2024, 6, 1⟩ (fun _ _ => 0) := by
  refine ⟨by decide, by decide, by decide, by decide⟩

/-- Counterexample to the non-negativity part of claim C4: on a record whose
pathology report has `reportDate` 5 days before `collectionDate`, the
report-phase Event records a turnaround of -5 days. -/
theorem pathology_turnaround_negative :
    (extractAllEvents pathNegRecord 0 ⟨2024, 6, 1⟩ (fun _ _ => 0)).map
      (fun e => e.details.processingTimeField) = [none, some (-5)] ∧
    ¬(0 : Int) ≤ -5 := by
  refine ⟨by decide, by decide⟩

theorem pathologyEventsAux_spec (reports : List PathReport) (r : PathReport)
    (k i : Nat) (hr : reports[i]? = some r) :
    ∃ ec er,
      (pathologyEventsAux k reports)[2 * i]? = some ec ∧
      (pathologyEventsAux k reports)[2 * i + 1]? = some er ∧
      ec.type = .pathology ∧ ec.importance = "medium" ∧
      ec.date = r.collectionDate ∧
      ec.details.phaseField = some "collection" ∧
      er.type = .pathology ∧ er.importance = "high" ∧
      er.date = r.reportDate ∧ er.details.phaseField = some "report" ∧
      er.details.processingTimeField =
        some (dayNumber r.reportDate - dayNumber r.collectionDate) := by
  induction reports generalizing k i with
  | nil => simp at hr
  | cons r0 rest ih =>
    cases i with
    | zero =>
      simp only [List.getElem?_cons_zero, Option.some.injEq] at hr
      subst hr
      simp only [pathologyEventsAux]
      norm_num [List.getElem?_cons_zero, List.getElem?_cons_succ]
      exact ⟨rfl, rfl, rfl⟩
    | succ n =>
      simp only [List.getElem?_cons_succ] at hr
      have hgoal := ih (k + 1) n hr
      simpa only [pathologyEventsAux, Nat.mul_succ,
        show ∀ m : Nat, 2 * n + 2 = 2 * n + 1 + 1 from fun _ => rfl,
        List.getElem?_cons_succ] using hgoal

theorem pathologyEventsAux_length (k : Nat) (reports : List PathReport) :
    (pathologyEventsAux k reports).length = 2 * reports.length := by
  induction reports generalizing k with
  | nil => rfl
  | cons r0 rest ih =>
    simp only [pathologyEventsAux, List.length_cons, ih]
    omega

/-- Claim C4 (amended): for every pathology report, extraction produces
exactly two Events — a collection-phase Event of importance "medium" dated at
the collection date and a report-phase Event of importance "high" dated at
the report date — and the report-phase Event's recorded turnaround equals
`reportDate - collectionDate` in days (a signed value: it is negative when
the report date precedes the collection date, as the source applies no
guard). -/
theorem pathology_pairing (pd : PatientData) (reports : List PathReport)
    (hsec : pd.pathologyReports = some reports) :
    (pathologyEvents pd).length = 2 * reports.length ∧
    ∀ i r, reports[i]? = some r →
      ∃ ec er,
        (pathologyEvents pd)[2 * i]? = some ec ∧
        (pathologyEvents pd)[2 * i + 1]? = some er ∧
        ec.type = .pathology ∧ ec.importance = "medium" ∧
        ec.date = r.collectionDate ∧
        ec.details.phaseField = some "collection" ∧
        er.type = .pathology ∧ er.importance = "high" ∧
        er.date = r.reportDate ∧ er.details.phaseField = some "report" ∧
        er.details.processingTimeField =
          some (dayNumber r.reportDate - dayNumber r.collectionDate) := by
  have hdef : pathologyEvents pd = pathologyEventsAux 0 reports := by
    unfold pathologyEvents
    rw [hsec]
  rw [hdef]
  exact ⟨pathologyEventsAux_length 0 reports,
    fun i r hr => pathologyEventsAux_spec reports r 0 i hr⟩

/-- Witness for C4 (amended) at the concrete one-report record (whose
turnaround happens to be -5 days). -/
theorem pathology_pairing_witness :
    (pathologyEvents pathNegRecord).length = 2 * 1 ∧
    ∃ ec er,
      (pathologyEvents pathNegRecord)[0]? = some ec ∧
      (pathologyEvents pathNegRecord)[1]? = some er ∧
      ec.type = .pathology ∧ ec.importance = "medium" ∧
      ec.date = pathNegReport.collectionDate ∧
      ec.details.phaseField = some "collection" ∧
      er.type = .pathology ∧ er.importance = "high" ∧
      er.date = pathNegReport.reportDate ∧
      er.details.phaseField = some "report" ∧
      er.details.processingTimeField =
        some (dayNumber pathNegReport.reportDate -
          dayNumber pathNegReport.collectionDate) := by
  have h := pathology_pairing pathNegRecord [pathNegReport] rfl
  exact ⟨h.1, h.2 0 pathNegReport rfl⟩

/-- Counterexample to claim C7 as stated: on a list with no diagnosis Event,
enrichment tags the clinical phase "unknown", which is none of the five
claimed values. -/
theorem clinicalPhase_unknown_counterexample :
    (enrichEventsWithContext [ceaFirst]).map EnrichedEvent.clinicalPhase =
      ["unknown"] ∧
    ¬("unknown" : String) ∈ ["pre_diagnosis", "initial_workup",
      "primary_treatment", "active_treatment", "long_term_follow_up"] := by
  refine ⟨by decide, by decide⟩

/-- Counterexample to claim C8 as stated: there is no per-test directionality
table — a CEA (tumor-marker) value rising from 10 to 20 (+100%) is tagged
"improving", not "declining" (and not "increasing" either). -/
theorem eventTrend_rising_marker_counterexample :
    calculateEventTrend ceaSecond [ceaFirst, ceaSecond] 1 =
      some "improving" ∧
    (some "improving" : Option String) ≠ some "declining" ∧
    (some "improving" : Option String) ≠ some "increasing" := by
  have hfil : sameTestEvents ceaSecond [ceaFirst, ceaSecond] =
      [ceaFirst, ceaSecond] := by rfl
  have hidx : (sameTestEvents ceaSecond [ceaFirst, ceaSecond]).findIdx?
      (fun e => decide (e.id = ceaSecond.id)) = some 1 := by rfl
  refine ⟨?_, by decide, by decide⟩
  unfold calculateEventTrend
  rw [if_neg (by decide), hidx, show (1 : Nat) = 0 + 1 from rfl]
  dsimp only
  rw [hfil]
  norm_num [ceaFirst, ceaSecond, mkLabEvent, Details.valueField]

/-- Claim C7 (amended): for every Event in the enriched list, the
days-from-diagnosis field is the signed day difference to the first diagnosis
Event (0 when none exists), and the clinical phase is one of the five
threshold-determined values when a diagnosis Event exists — pre_diagnosis for
negative offsets, initial_workup for 0-30, primary_treatment for 31-90,
active_treatment for 91-365, long_term_follow_up beyond — and the sixth
value "unknown" exactly when no diagnosis Event exists. -/
theorem enrichment_temporal_context (es : List Event) (i : Nat)
    (ev : EnrichedEvent) (he : (enrichEventsWithContext es)[i]? = some ev) :
    (es.find? (fun x => decide (x.type = EventType.diagnosis)) = none →
      ev.dayFromDiagnosis = 0 ∧ ev.clinicalPhase = "unknown") ∧
    (∀ d, es.find? (fun x => decide (x.type = EventType.diagnosis)) = some d →
      ev.dayFromDiagnosis = dayNumber ev.base.date - dayNumber d.date ∧
      (ev.clinicalPhase = "pre_diagnosis" ↔ ev.dayFromDiagnosis < 0) ∧
      (ev.clinicalPhase = "initial_workup" ↔
        0 ≤ ev.dayFromDiagnosis ∧ ev.dayFromDiagnosis ≤ 30) ∧
      (ev.clinicalPhase = "primary_treatment" ↔
        30 < ev.dayFromDiagnosis ∧ ev.dayFromDiagnosis ≤ 90) ∧
      (ev.clinicalPhase = "active_treatment" ↔
        90 < ev.dayFromDiagnosis ∧ ev.dayFromDiagnosis ≤ 365) ∧
      (ev.clinicalPhase = "long_term_follow_up" ↔
        365 < ev.dayFromDiagnosis)) ∧
    ev.clinicalPhase ∈ ["pre_diagnosis", "initial_workup",
      "primary_treatment", "active_treatment", "long_term_follow_up",
      "unknown"] := by
  unfold enrichEventsWithContext at he
  rw [List.getElem?_map, List.getElem?_enum] at he
  cases hb : es[i]? with
  | none => rw [hb] at he; simp at he
  | some b =>
    rw [hb] at he
    simp only [Option.map_some'] at he
    have he2 := Option.some.inj he
    subst he2
    dsimp only
    refine ⟨?_, ?_, ?_⟩
    · intro hnone
      unfold calculateDaysFromDiagnosis determineClinicalPhase
      rw [hnone]
      exact ⟨rfl, rfl⟩
    · intro d hd
      unfold calculateDaysFromDiagnosis determineClinicalPhase
        differenceInDays
      rw [hd]
      dsimp only
      refine ⟨rfl, ?_, ?_, ?_, ?_, ?_⟩ <;>
        split_ifs with h1 h2 h3 h4 <;>
        constructor <;> intro hh <;>
        first
        | rfl
        | omega
        | (exact absurd hh (by decide))
    · unfold determineClinicalPhase
      cases hf : es.find? (fun x => decide (x.type = EventType.diagnosis)) <;>
        dsimp only
      · decide
      · split_ifs <;> decide

/-- Witness for C7 (amended) at a two-event list (a diagnosis followed by a
lab result 214 days later). -/
theorem enrichment_temporal_context_witness :
    ceaEnriched.dayFromDiagnosis =
      dayNumber ceaEnriched.base.date - dayNumber dgEvent.date ∧
    (ceaEnriched.clinicalPhase = "pre_diagnosis" ↔
      ceaEnriched.dayFromDiagnosis < 0) ∧
    (ceaEnriched.clinicalPhase = "initial_workup" ↔
      0 ≤ ceaEnriched.dayFromDiagnosis ∧ ceaEnriched.dayFromDiagnosis ≤ 30) ∧
    (ceaEnriched.clinicalPhase = "primary_treatment" ↔
      30 < ceaEnriched.dayFromDiagnosis ∧ ceaEnriched.dayFromDiagnosis ≤ 90) ∧
    (ceaEnriched.clinicalPhase = "active_treatment" ↔
      90 < ceaEnriched.dayFromDiagnosis ∧
        ceaEnriched.dayFromDiagnosis ≤ 365) ∧
    (ceaEnriched.clinicalPhase = "long_term_follow_up" ↔
      365 < ceaEnriched.dayFromDiagnosis) :=
  (enrichment_temporal_context [dgEvent, ceaFirst] 1 ceaEnriched rfl).2.1
    dgEvent rfl

theorem findIdxId_go (l : List Event) (e : Event) (j s : Nat)
    (hn : (l.map Event.id).Nodup) (hj : l[j]? = some e) :
    List.findIdx? (fun x => decide (x.id = e.id)) l s = some (s + j) := by
  induction l generalizing j s with
  | nil => simp at hj
  | cons a l ih =>
    simp only [List.map_cons, List.nodup_cons] at hn
    cases j with
    | zero =>
      simp only [List.getElem?_cons_zero, Option.some.injEq] at hj
      subst hj
      rw [List.findIdx?_cons]
      simp
    | succ n =>
      simp only [List.getElem?_cons_succ] at hj
      have hmem : e ∈ l :=
        List.get?_mem (by rw [List.get?_eq_getElem?]; exact hj)
      have hid : ¬(a.id = e.id) := by
        intro hEq
        exact hn.1 (hEq ▸ List.mem_map_of_mem Event.id hmem)
      rw [List.findIdx?_cons, if_neg (by simpa using hid)]
      rw [ih n (s + 1) hn.2 hj]
      exact congrArg some (by omega)

/-- Claim C8 (amended): for a lab-result Event found at position `j` of the
same-test-name lab series (ids distinct), the trend tag is "baseline" for the
first occurrence (`j = 0`) and otherwise is determined by comparing against
the immediately preceding same-test Event with the 10% thresholds —
"improving" on a rise of more than 10%, "declining" on a fall of more than
10%, else "stable" — with no per-test directionality table and no
"increasing"/"decreasing" tags. -/
theorem eventTrend_threshold_rule (es : List Event) (e : Event) (i j : Nat)
    (ht : e.type = EventType.lab_result)
    (hn : ((sameTestEvents e es).map Event.id).Nodup)
    (hj : (sameTestEvents e es)[j]? = some e) :
    (j = 0 → calculateEventTrend e es i = some "baseline") ∧
    (∀ p, 0 < j → (sameTestEvents e es)[j - 1]? = some p →
      calculateEventTrend e es i = some (specTrendRule p e)) := by
  have hidx : (sameTestEvents e es).findIdx?
      (fun x => decide (x.id = e.id)) = some j := by
    have := findIdxId_go (sameTestEvents e es) e j 0 hn hj
    simpa using this
  unfold calculateEventTrend
  rw [if_neg (not_not_intro ht), hidx]
  constructor
  · intro h0
    subst h0
    rfl
  · intro p hjpos hp
    obtain ⟨n, rfl⟩ : ∃ n, j = n + 1 := ⟨j - 1, by omega⟩
    simp only [Nat.add_sub_cancel] at hp
    dsimp only
    rw [hp]
    dsimp only
    unfold specTrendRule
    cases hcv : e.details.valueField <;> cases hpv : p.details.valueField <;>
      dsimp only <;> split_ifs <;> rfl

/-- Witness for C8 (amended) at the two-sample CEA series (second sample at
position 1, rising 100%, hence "improving" under the threshold rule). -/
theorem eventTrend_threshold_rule_witness :
    calculateEventTrend ceaSecond [ceaFirst, ceaSecond] 1 =
      some (specTrendRule ceaFirst ceaSecond) :=
  (eventTrend_threshold_rule [ceaFirst, ceaSecond] ceaSecond 1 1 rfl
    (by decide) rfl).2 ceaFirst (by decide) rfl

theorem keyLe_refl (a : Int × Int) : keyLe a a := by
  unfold keyLe; omega

theorem keyLt_irrefl (a : Int × Int) : ¬keyLt a a := by
  unfold keyLt; omega

theorem insertGrouped_keys_mem {α : Type} (g : List ((Int × Int) × List α))
    (k : Int × Int) (e : α) :
    ∀ k2 ∈ (insertGrouped g k e).map Prod.fst,
      k2 ∈ g.map Prod.fst ∨ k2 = k := by
  induction g with
  | nil =>
    intro k2 hk2
    simp [insertGrouped] at hk2
    exact Or.inr hk2
  | cons p g ih =>
    obtain ⟨k0, es0⟩ := p
    intro k2 hk2
    by_cases hk : k0 = k
    · subst hk
      simp only [insertGrouped, if_pos rfl] at hk2
      simp only [List.map_cons] at hk2 ⊢
      exact Or.inl hk2
    · simp only [insertGrouped, if_neg hk, List.map_cons,
        List.mem_cons] at hk2 ⊢
      rcases hk2 with hk2 | hk2
      · exact Or.inl (Or.inl hk2)
      · rcases ih k2 hk2 with h | h
        · exact Or.inl (Or.inr h)
        · exact Or.inr h

theorem insertGrouped_spec {α : Type} (g : List ((Int × Int) × List α))
    (k : Int × Int) (e : α)
    (hinc : List.Pairwise keyLt (g.map Prod.fst))
    (hle : ∀ k2 ∈ g.map Prod.fst, keyLe k2 k) :
    ((insertGrouped g k e).map Prod.snd).flatten =
      (g.map Prod.snd).flatten ++ [e] ∧
    List.Pairwise keyLt ((insertGrouped g k e).map Prod.fst) := by
  induction g with
  | nil => simp [insertGrouped]
  | cons p g ih =>
    obtain ⟨k0, es0⟩ := p
    by_cases hk : k0 = k
    · subst hk
      have hg : g = [] := by
        cases g with
        | nil => rfl
        | cons q g2 =>
          exfalso
          have h1 : keyLt k0 q.1 := by
            have := (List.pairwise_cons.mp hinc).1 q.1 (by simp)
            exact this
          have h2 : keyLe q.1 k0 := hle q.1 (by simp)
          exact keyLt_asymm_le h1 h2
      subst hg
      simp [insertGrouped]
    · simp only [List.map_cons, List.pairwise_cons] at hinc
      have ih2 := ih hinc.2 (fun k2 hk2 => hle k2 (by simp [hk2]))
      simp only [insertGrouped, if_neg hk, List.map_cons, List.flatten_cons,
        List.pairwise_cons]
      refine ⟨?_, ?_, ih2.2⟩
      · rw [ih2.1, List.append_assoc]
      · intro k2 hk2
        rcases insertGrouped_keys_mem g k e k2 hk2 with h | h
        · exact hinc.1 k2 h
        · subst h
          exact keyLt_of_keyLe_ne (hle k0 (by simp)) hk

theorem insertGrouped_buckets {α : Type} (dateOf : α → CalDate)
    (g : List ((Int × Int) × List α)) (e : α)
    (hg : ∀ p ∈ g, p.2 ≠ [] ∧ ∀ x ∈ p.2, monthKey (dateOf x) = p.1) :
    ∀ p ∈ insertGrouped g (monthKey (dateOf e)) e,
      p.2 ≠ [] ∧ ∀ x ∈ p.2, monthKey (dateOf x) = p.1 := by
  induction g with
  | nil =>
    intro p hp
    have heq : insertGrouped ([] : List ((Int × Int) × List α))
        (monthKey (dateOf e)) e = [(monthKey (dateOf e), [e])] := rfl
    rw [heq, List.mem_singleton] at hp
    subst hp
    refine ⟨by simp, ?_⟩
    intro x hx
    rw [List.mem_singleton] at hx
    subst hx
    rfl
  | cons q g ih =>
    obtain ⟨k0, es0⟩ := q
    intro p hp
    have heq : insertGrouped ((k0, es0) :: g) (monthKey (dateOf e)) e =
        if k0 = monthKey (dateOf e) then (k0, es0 ++ [e]) :: g
        else (k0, es0) :: insertGrouped g (monthKey (dateOf e)) e := rfl
    rw [heq] at hp
    by_cases hk : k0 = monthKey (dateOf e)
    · rw [if_pos hk] at hp
      rcases List.mem_cons.mp hp with hp | hp
      · subst hp
        refine ⟨by simp, ?_⟩
        intro x hx
        rcases List.mem_append.mp hx with hx | hx
        · exact (hg (k0, es0) (List.mem_cons_self _ _)).2 x hx
        · rw [List.mem_singleton] at hx
          subst hx
          exact hk.symm
      · exact hg p (List.mem_cons_of_mem _ hp)
    · rw [if_neg hk] at hp
      rcases List.mem_cons.mp hp with hp | hp
      · subst hp
        exact hg (k0, es0) (List.mem_cons_self _ _)
      · exact ih (fun q2 hq2 => hg q2 (List.mem_cons_of_mem _ hq2)) p hp

theorem groupFold_spec {α : Type} (dateOf : α → CalDate) (es : List α)
    (g : List ((Int × Int) × List α))
    (hinc : List.Pairwise keyLt (g.map Prod.fst))
    (hle : ∀ e2 ∈ es, ∀ k2 ∈ g.map Prod.fst, keyLe k2 (monthKey (dateOf e2)))
    (hsort : List.Pairwise (fun a b => dateLe (dateOf a) (dateOf b)) es) :
    (((es.foldl (fun g2 e => insertGrouped g2 (monthKey (dateOf e)) e)
        g).map Prod.snd).flatten = (g.map Prod.snd).flatten ++ es) ∧
    List.Pairwise keyLt
      ((es.foldl (fun g2 e => insertGrouped g2 (monthKey (dateOf e)) e)
        g).map Prod.fst) := by
  induction es generalizing g with
  | nil => exact ⟨(List.append_nil _).symm, hinc⟩
  | cons e es ih =>
    simp only [List.foldl_cons]
    have hspec := insertGrouped_spec g (monthKey (dateOf e)) e hinc
      (fun k2 hk2 => hle e (by simp) k2 hk2)
    have hsort2 := List.pairwise_cons.mp hsort
    have hle2 : ∀ e2 ∈ es,
        ∀ k2 ∈ (insertGrouped g (monthKey (dateOf e)) e).map Prod.fst,
        keyLe k2 (monthKey (dateOf e2)) := by
      intro e2 he2 k2 hk2
      rcases insertGrouped_keys_mem g (monthKey (dateOf e)) e k2 hk2 with
        h | h
      · exact keyLe_trans (hle e (by simp) k2 h)
          (monthKey_mono (hsort2.1 e2 he2))
      · subst h
        exact monthKey_mono (hsort2.1 e2 he2)
    have ih2 := ih (insertGrouped g (monthKey (dateOf e)) e) hspec.2 hle2
      hsort2.2
    refine ⟨?_, ih2.2⟩
    rw [ih2.1, hspec.1, List.append_assoc]
    rfl

theorem groupFold_buckets {α : Type} (dateOf : α → CalDate) (es : List α)
    (g : List ((Int × Int) × List α))
    (hg : ∀ p ∈ g, p.2 ≠ [] ∧ ∀ x ∈ p.2, monthKey (dateOf x) = p.1) :
    ∀ p ∈ es.foldl (fun g2 e => insertGrouped g2 (monthKey (dateOf e)) e) g,
      p.2 ≠ [] ∧ ∀ x ∈ p.2, monthKey (dateOf x) = p.1 := by
  induction es generalizing g with
  | nil => exact hg
  | cons e es ih =>
    simp only [List.foldl_cons]
    exact ih _ (insertGrouped_buckets dateOf g e hg)

/-- Claim C6: for every list of extracted Events, after assembly (sort then
group by calendar month) the concatenation of the Periods' event lists is
date-ascending, the grouped events are a permutation of the input (so every
Event appears exactly once across Periods), every event sits in the Period
labelled with the month-year of its own date and period keys are distinct
(so its Period is unique), and no emitted Period is empty. -/
theorem timeline_partition (events : List Event) :
    List.Chain' (fun a b => dateLe a.date b.date)
      (((groupEventsByPeriod (sortEventsByDate events)).map
        Prod.snd).flatten) ∧
    (((groupEventsByPeriod (sortEventsByDate events)).map
      Prod.snd).flatten).Perm events ∧
    (∀ p ∈ groupEventsByPeriod (sortEventsByDate events),
      p.2 ≠ [] ∧ ∀ e ∈ p.2, monthKey e.date = p.1) ∧
    ((groupEventsByPeriod (sortEventsByDate events)).map Prod.fst).Nodup := by
  have hgdef : groupEventsByPeriod (sortEventsByDate events) =
      (sortEventsByDate events).foldl
        (fun g2 e => insertGrouped g2 (monthKey (Event.date e)) e) [] := rfl
  have htrans : ∀ a b c : Event, dateLeB a.date b.date = true →
      dateLeB b.date c.date = true → dateLeB a.date c.date = true := by
    intro a b c h1 h2
    simp only [dateLeB, decide_eq_true_eq] at h1 h2 ⊢
    exact dateLe_trans h1 h2
  have htot : ∀ a b : Event,
      (dateLeB a.date b.date || dateLeB b.date a.date) = true := by
    intro a b
    simp only [dateLeB, Bool.or_eq_true, decide_eq_true_eq]
    exact dateLe_total a.date b.date
  have hsorted : List.Pairwise (fun a b : Event => dateLe a.date b.date)
      (sortEventsByDate events) := by
    have h := List.sorted_mergeSort htrans htot events
    exact h.imp (fun hab => by simpa [dateLeB] using hab)
  have hperm : (sortEventsByDate events).Perm events :=
    List.mergeSort_perm events _
  have hmain := groupFold_spec Event.date (sortEventsByDate events) []
    (by simp) (by simp) hsorted
  have hbuckets := groupFold_buckets Event.date (sortEventsByDate events) []
    (by simp)
  have hflat : ((groupEventsByPeriod (sortEventsByDate events)).map
      Prod.snd).flatten = sortEventsByDate events := by
    rw [hgdef]
    simpa using hmain.1
  refine ⟨?_, ?_, ?_, ?_⟩
  · rw [hflat]
    exact hsorted.chain'
  · rw [hflat]
    exact hperm
  · rw [hgdef]
    exact hbuckets
  · rw [hgdef]
    refine List.Pairwise.imp ?_ hmain.2
    intro a b hlt heq
    exact keyLt_irrefl b (heq ▸ hlt)

/-- Claim C9 (code bug): event extraction itself is total on sparse
records — it is the concatenation of the per-section extractors, each
absent optional section contributes no Events, and the record with no
extractable Events yields the empty Event list — but the surrounding
pipeline does not return the claimed typed empty result: assembling its
output object calls `this.analyzeImagingProgression`, a method the class
never defines, so `generateComprehensiveLongitudinalHistory` raises a
`TypeError` for every record, the empty one included, instead of returning
an output with zero Events. -/
theorem extraction_total_on_sparse (pd : PatientData) (now : Nat)
    (nowDate : CalDate) (rand : Nat → Nat → Nat) (pid : String) :
    extractAllEvents pd now nowDate rand =
      diagnosisEvents pd now ++ historyEvents pd ++ labEvents pd nowDate ++
      imagingEvents pd ++ pathologyEvents pd ++ genomicsEvents pd now ++
      treatmentEvents pd rand ++ trialEvents pd ∧
    historyEvents { pd with medicalHistory := none } = [] ∧
    labEvents { pd with labResults := none } nowDate = [] ∧
    imagingEvents { pd with imaging := none } = [] ∧
    pathologyEvents { pd with pathologyReports := none } = [] ∧
    genomicsEvents { pd with genomics := none } now = [] ∧
    treatmentEvents { pd with treatments := none } rand = [] ∧
    trialEvents { pd with clinicalTrials := none } = [] ∧
    extractAllEvents (emptyRecord pid) now nowDate rand = [] ∧
    generateComprehensiveLongitudinalHistory (emptyRecord pid) now nowDate
      rand =
      .error "TypeError: this.analyzeImagingProgression is not a function" :=
  ⟨rfl, rfl, rfl, rfl, rfl, rfl, rfl, rfl, rfl, rfl⟩
